import Mathlib

/-!
Verification of the `bet_hope` ML pipeline core (feature engineering,
feedback-weighted training, model persistence and inference).

Python sources are shallowly embedded as executable Lean definitions:
`Decimal`/`float` values become `ℚ`, dates become day indices (`Int`) with
their calendar projections carried alongside, Django querysets become list
filters over an explicit database value, and fallible code returns
`Except`/`Option`.  Definitions mirror the corresponding Python function
bodies statement by statement.
-/

namespace BetHope

/-! ## Sample weighting (`apps/ml_pipeline/feedback/feedback_trainer.py`) -/

namespace FeedbackTrainer

/-- Weight configuration, from `FeedbackTrainer.DEFAULT_CONFIG`
(numeric entries only; `recent_days` is unused by the weight formula). -/
structure Config where
  timeDecayFactor : ℚ
  wrongPredictionBoost : ℚ
  highConfidenceWrongBoost : ℚ
  minWeight : ℚ
  maxWeight : ℚ
deriving Repr

/-- `FeedbackTrainer.DEFAULT_CONFIG`:
`{time_decay_factor: 0.98, wrong_prediction_boost: 2.0,
  high_confidence_wrong_boost: 1.5, min_weight: 0.1, max_weight: 5.0}`. -/
def defaultConfig : Config :=
  { timeDecayFactor := 98/100
    wrongPredictionBoost := 2
    highConfidenceWrongBoost := 3/2
    minWeight := 1/10
    maxWeight := 5 }

/-- The entry of `predictions_map` passed as `prediction_info`
(`is_correct`, `confidence`); `recommended_outcome` is unused by the
weight formula. -/
structure PredictionInfo where
  isCorrect : Bool
  confidence : ℚ
deriving Repr, DecidableEq

/-- Step 1 of `FeedbackTrainer._calculate_sample_weight` (the
`days_ago`/time-decay block, factored out): starting from `weight = 1.0`,
when `days_ago > 0` multiply by `max(time_decay_factor ** days_ago,
min_weight)`.  Dates are day indices, so
`(reference_date - match.match_date).days` is `referenceDate - matchDate`. -/
def timeDecayWeight (cfg : Config) (matchDate referenceDate : Int) : ℚ :=
  let daysAgo : Int := referenceDate - matchDate
  if 0 < daysAgo then
    1 * max (cfg.timeDecayFactor ^ daysAgo.toNat) cfg.minWeight
  else 1

/-- `FeedbackTrainer._calculate_sample_weight`.  Mirrors the source: the
time-decay factor is applied only when `days_ago > 0` (see
`timeDecayWeight`); a validated wrong prediction doubles the weight, a
wrong prediction with confidence above `0.6` gets the extra `1.5` factor,
and the result is clamped to `[min_weight, max_weight]`. -/
def calculateSampleWeight (cfg : Config) (matchDate : Int)
    (predictionInfo : Option PredictionInfo) (referenceDate : Int) : ℚ :=
  let w2 : ℚ := timeDecayWeight cfg matchDate referenceDate
  let w3 : ℚ :=
    match predictionInfo with
    | some info =>
        if info.isCorrect = false then
          let wb := w2 * cfg.wrongPredictionBoost
          if 6/10 < info.confidence then wb * cfg.highConfidenceWrongBoost
          else wb
        else w2
    | none => w2
  max cfg.minWeight (min w3 cfg.maxWeight)

/-- The weight formula exactly as the claim words it: start from `1.0`,
multiply by `max(0.98^days, 0.1)`, then by `2.0` for a validated wrong
prediction, then by `1.5` when that wrong prediction's confidence
exceeded `0.6`, and clamp into `[0.1, 5.0]`. -/
def claimedSampleWeight (days : Nat) (predictionInfo : Option PredictionInfo) : ℚ :=
  let w1 : ℚ := 1 * max ((98/100 : ℚ) ^ days) (1/10)
  let w2 : ℚ :=
    match predictionInfo with
    | some info =>
        if info.isCorrect = false then
          if 6/10 < info.confidence then w1 * 2 * (3/2) else w1 * 2
        else w1
    | none => w1
  max (1/10) (min w2 5)

end FeedbackTrainer

/-! ## Prediction strength (`apps/predictions/models.py`, `Prediction.save`) -/

namespace Predictions

/-- `Prediction.Strength` choices. -/
inductive Strength where
  | strong
  | moderate
  | weak
deriving Repr, DecidableEq

/-- The `prediction_strength` assignment in `Prediction.save`:
`strong` when `confidence_score >= 0.70`, `moderate` when
`confidence_score >= 0.55`, otherwise `weak`.  `confidence_score` is a
4-decimal-place field, embedded as `ℚ`. -/
def predictionStrength (confidenceScore : ℚ) : Strength :=
  if 70/100 ≤ confidenceScore then .strong
  else if 55/100 ≤ confidenceScore then .moderate
  else .weak

end Predictions

/-! ## Match-store data model (`apps/matches/models.py`, `apps/teams/models.py`) -/

/-- A calendar date.  `days` is an absolute day index, which carries the
ordering and day-difference structure of `datetime.date`; `weekday`
(`0 = Monday … 6 = Sunday`) and `month` are the `date.weekday()` and
`date.month` projections of the same date. -/
structure MDate where
  days : Int
  weekday : Nat := 0
  month : Nat := 1
deriving Repr, DecidableEq

/-- `Match.Status` choices. -/
inductive MatchStatus where
  | scheduled | live | halftime | finished | postponed | cancelled
deriving Repr, DecidableEq

/-- `MatchStatistics` (the xG fields used by the feature builders). -/
structure MatchStats where
  xgHome : Option ℚ
  xgAway : Option ℚ
deriving Repr, DecidableEq

/-- A `Match` row (the fields read by the ML pipeline). -/
structure MatchRow where
  id : Nat
  homeTeamId : Nat
  awayTeamId : Nat
  matchDate : MDate
  status : MatchStatus
  homeScore : Option Int := none
  awayScore : Option Int := none
  homeHalftimeScore : Option Int := none
  awayHalftimeScore : Option Int := none
  statistics : Option MatchStats := none
deriving Repr, DecidableEq

/-- A `MatchOdds` row (1X2 decimal odds). -/
structure MatchOddsRow where
  matchId : Nat
  homeOdds : Option ℚ
  drawOdds : Option ℚ
  awayOdds : Option ℚ
deriving Repr, DecidableEq

/-- A `TeamSeasonStats` row (the fields read by `_get_season_stats`).
`unique_together = ['team', 'season']` holds in the store. -/
structure TeamSeasonStatsRow where
  teamId : Nat
  seasonCode : String
  wins : Int
  draws : Int
  losses : Int
  goalsFor : Int
  goalsAgainst : Int
  xgFor : Option ℚ := none
  xgAgainst : Option ℚ := none
deriving Repr, DecidableEq

/-- The read-only relational store the feature builders query. -/
structure DB where
  teams : List Nat
  matchRows : List MatchRow
  odds : List MatchOddsRow
  seasonStats : List TeamSeasonStatsRow
deriving Repr

/-- A feature mapping (Python `Dict[str, float]` in insertion order;
the builders never insert a key twice). -/
abbrev FeatureMap := List (String × ℚ)

/-! ## TeamFeatureBuilder (`apps/ml_pipeline/features/team_features.py`) -/

namespace TeamFeatures

/-- `TeamFeatureBuilder.FORM_MATCHES`. -/
def FORM_MATCHES : Nat := 5

/-- `TeamFeatureBuilder.DECAY_FACTOR`. -/
def DECAY_FACTOR : ℚ := 9/10

/-- `TeamFeatureBuilder._is_home_match`. -/
def isHomeMatch (teamId : Nat) (m : MatchRow) : Bool :=
  m.homeTeamId == teamId

/-- The `Q(home_team=team) | Q(away_team=team)` filter. -/
def involvesTeam (teamId : Nat) (m : MatchRow) : Bool :=
  m.homeTeamId == teamId || m.awayTeamId == teamId

/-- Insert into a list sorted by `match_date` descending (stable). -/
def insertByDateDesc (m : MatchRow) : List MatchRow → List MatchRow
  | [] => [m]
  | x :: xs =>
      if x.matchDate.days < m.matchDate.days then m :: x :: xs
      else x :: insertByDateDesc m xs

/-- `order_by('-match_date')`: stable sort by date descending. -/
def sortByDateDesc : List MatchRow → List MatchRow
  | [] => []
  | x :: xs => insertByDateDesc x (sortByDateDesc xs)

/-- `TeamFeatureBuilder._get_recent_matches`: finished matches of the team
strictly before `as_of_date`, most recent first, capped at `limit`. -/
def getRecentMatches (dbMatches : List MatchRow) (teamId : Nat)
    (asOfDate : MDate) (limit : Nat) : List MatchRow :=
  (sortByDateDesc (dbMatches.filter (fun m =>
    involvesTeam teamId m
      && decide (m.matchDate.days < asOfDate.days)
      && m.status == MatchStatus.finished))).take limit

/-- `gf` of one loop iteration of `_calculate_form_features`
(`home_score or 0` from the team's perspective). -/
def goalsFor (teamId : Nat) (m : MatchRow) : Int :=
  if isHomeMatch teamId m then m.homeScore.getD 0 else m.awayScore.getD 0

/-- `ga` of one loop iteration of `_calculate_form_features`. -/
def goalsAgainst (teamId : Nat) (m : MatchRow) : Int :=
  if isHomeMatch teamId m then m.awayScore.getD 0 else m.homeScore.getD 0

/-- `match_points` of one loop iteration (3 on a win, 1 on a draw, 0 on
a loss). -/
def matchPoints (teamId : Nat) (m : MatchRow) : Int :=
  if goalsFor teamId m > goalsAgainst teamId m then 3
  else if goalsFor teamId m == goalsAgainst teamId m then 1
  else 0

/-- The `weighted_points` accumulator: `Σ match_points_i · DECAY_FACTOR^i`,
threaded with the current weight (`w = DECAY_FACTOR^i`, starting at 1). -/
def weightedPoints (teamId : Nat) : List MatchRow → ℚ → ℚ
  | [], _ => 0
  | m :: ms, w => (matchPoints teamId m : ℚ) * w + weightedPoints teamId ms (w * DECAY_FACTOR)

/-- `TeamFeatureBuilder._calculate_form_features`.  The empty-list early
return mirrors the source exactly: it contains only nine keys — there is
no `form_weighted_points` entry in that branch.  In the non-empty branch
`n > 0`, so the source's `if n > 0 else 0.0` guards are dropped. -/
def calculateFormFeatures (teamId : Nat) (ms : List MatchRow)
    (pre : String) : FeatureMap :=
  if ms.isEmpty then
    [ (pre ++ "form_points", 0),
      (pre ++ "form_goals_scored", 0),
      (pre ++ "form_goals_conceded", 0),
      (pre ++ "form_goal_diff", 0),
      (pre ++ "form_win_rate", 0),
      (pre ++ "form_draw_rate", 0),
      (pre ++ "form_loss_rate", 0),
      (pre ++ "form_clean_sheets", 0),
      (pre ++ "form_failed_to_score", 0) ]
  else
    let n : ℚ := ms.length
    let points : Int := (ms.map (matchPoints teamId)).sum
    let goalsScored : Int := (ms.map (goalsFor teamId)).sum
    let goalsConceded : Int := (ms.map (goalsAgainst teamId)).sum
    let wins : Nat := ms.countP (fun m => decide (goalsAgainst teamId m < goalsFor teamId m))
    let draws : Nat := ms.countP (fun m => goalsFor teamId m == goalsAgainst teamId m)
    let losses : Nat := ms.countP (fun m => decide (goalsFor teamId m < goalsAgainst teamId m))
    let cleanSheets : Nat := ms.countP (fun m => goalsAgainst teamId m == 0)
    let failedToScore : Nat := ms.countP (fun m => goalsFor teamId m == 0)
    [ (pre ++ "form_points", (points : ℚ) / (n * 3)),
      (pre ++ "form_goals_scored", (goalsScored : ℚ) / n),
      (pre ++ "form_goals_conceded", (goalsConceded : ℚ) / n),
      (pre ++ "form_goal_diff", ((goalsScored - goalsConceded : Int) : ℚ) / n),
      (pre ++ "form_win_rate", (wins : ℚ) / n),
      (pre ++ "form_draw_rate", (draws : ℚ) / n),
      (pre ++ "form_loss_rate", (losses : ℚ) / n),
      (pre ++ "form_clean_sheets", (cleanSheets : ℚ) / n),
      (pre ++ "form_failed_to_score", (failedToScore : ℚ) / n),
      (pre ++ "form_weighted_points", weightedPoints teamId ms 1 / n) ]

/-- `.order_by('-season__code').first()` over the team's stats rows:
the row with the largest season code (first such row on ties). -/
def latestSeasonRow (rows : List TeamSeasonStatsRow) : Option TeamSeasonStatsRow :=
  rows.foldl (fun acc r =>
    match acc with
    | none => some r
    | some b => if b.seasonCode < r.seasonCode then some r else some b) none

/-- The row lookup of `TeamFeatureBuilder._get_season_stats`: with
`season_code` given, the `.get(team, season__code)` lookup is a `find?`
(rows are unique per (team, season)); otherwise the latest season row. -/
def seasonStatsLookup (rows : List TeamSeasonStatsRow) (teamId : Nat)
    (seasonCode : Option String) : Option TeamSeasonStatsRow :=
  let teamRows := rows.filter (fun r => r.teamId == teamId)
  match seasonCode with
  | some code => teamRows.find? (fun r => r.seasonCode == code)
  | none => latestSeasonRow teamRows

/-- `TeamFeatureBuilder._get_season_stats`; a missing row falls to the
all-zero default (`TeamSeasonStats.DoesNotExist` branch). -/
def getSeasonStats (rows : List TeamSeasonStatsRow) (teamId : Nat)
    (seasonCode : Option String) : FeatureMap :=
  match seasonStatsLookup rows teamId seasonCode with
  | some stats =>
      let played : Int := stats.wins + stats.draws + stats.losses
      [ ("season_points", if 0 < played then ((stats.wins * 3 + stats.draws : Int) : ℚ) / played else 0),
        ("season_goals_per_game", if 0 < played then (stats.goalsFor : ℚ) / played else 0),
        ("season_conceded_per_game", if 0 < played then (stats.goalsAgainst : ℚ) / played else 0),
        ("season_goal_diff", if 0 < played then ((stats.goalsFor - stats.goalsAgainst : Int) : ℚ) / played else 0),
        ("season_win_rate", if 0 < played then (stats.wins : ℚ) / played else 0),
        ("season_xg_diff", stats.xgFor.getD 0 - stats.xgAgainst.getD 0),
        ("season_matches_played", (played : ℚ)) ]
  | none =>
      [ ("season_points", 0),
        ("season_goals_per_game", 0),
        ("season_conceded_per_game", 0),
        ("season_goal_diff", 0),
        ("season_win_rate", 0),
        ("season_xg_diff", 0),
        ("season_matches_played", 0) ]

/-- The `xg` value of one loop iteration of `_calculate_xg_features`
(`float(stats.xg_home or 0) if stats else 0`, from the team's side). -/
def matchXg (teamId : Nat) (m : MatchRow) : ℚ :=
  match m.statistics with
  | some s => if isHomeMatch teamId m then s.xgHome.getD 0 else s.xgAway.getD 0
  | none => 0

/-- The `xga` value of one loop iteration of `_calculate_xg_features`. -/
def matchXga (teamId : Nat) (m : MatchRow) : ℚ :=
  match m.statistics with
  | some s => if isHomeMatch teamId m then s.xgAway.getD 0 else s.xgHome.getD 0
  | none => 0

/-- `np.mean` over a list of rationals. -/
def mean (l : List ℚ) : ℚ := l.sum / l.length

/-- `TeamFeatureBuilder._calculate_xg_features`: averages over the
matches with positive recorded xG (zero xG is treated as missing). -/
def calculateXgFeatures (teamId : Nat) (ms : List MatchRow) : FeatureMap :=
  let xgForL : List ℚ :=
    (ms.filter (fun m => decide (0 < matchXg teamId m))).map (matchXg teamId)
  let xgAgainstL : List ℚ :=
    (ms.filter (fun m => decide (0 < matchXga teamId m))).map (matchXga teamId)
  let overperfL : List ℚ :=
    (ms.filter (fun m => decide (0 < matchXg teamId m))).map
      (fun m => (goalsFor teamId m : ℚ) - matchXg teamId m)
  [ ("xg_for_avg", if xgForL.isEmpty then 0 else mean xgForL),
    ("xg_against_avg", if xgAgainstL.isEmpty then 0 else mean xgAgainstL),
    ("xg_diff", if xgForL.isEmpty || xgAgainstL.isEmpty then 0
      else mean xgForL - mean xgAgainstL),
    ("xg_overperformance", if overperfL.isEmpty then 0 else mean overperfL) ]

/-- `TeamFeatureBuilder._calculate_scoring_patterns`. -/
def calculateScoringPatterns (_teamId : Nat) (ms : List MatchRow) : FeatureMap :=
  if ms.isEmpty then
    [ ("btts_rate", 0),
      ("over_25_rate", 0),
      ("over_15_rate", 0),
      ("first_half_goals_rate", 0) ]
  else
    let n : ℚ := ms.length
    let btts : Nat := ms.countP (fun m =>
      decide (0 < m.homeScore.getD 0) && decide (0 < m.awayScore.getD 0))
    let over25 : Nat := ms.countP (fun m =>
      decide ((5:ℚ)/2 < ((m.homeScore.getD 0 + m.awayScore.getD 0 : Int) : ℚ)))
    let over15 : Nat := ms.countP (fun m =>
      decide ((3:ℚ)/2 < ((m.homeScore.getD 0 + m.awayScore.getD 0 : Int) : ℚ)))
    let firstHalfGoals : Nat := ms.countP (fun m =>
      decide (0 < m.homeHalftimeScore.getD 0 + m.awayHalftimeScore.getD 0))
    [ ("btts_rate", (btts : ℚ) / n),
      ("over_25_rate", (over25 : ℚ) / n),
      ("over_15_rate", (over15 : ℚ) / n),
      ("first_half_goals_rate", (firstHalfGoals : ℚ) / n) ]

/-- `TeamFeatureBuilder.build_features` (the in-memory cache is dropped:
the function is pure in the store).  An unknown team id returns the empty
mapping, as in the source's `Team.DoesNotExist` branch. -/
def buildFeatures (db : DB) (teamId : Nat) (asOfDate : MDate)
    (isHome : Bool) (seasonCode : Option String) : FeatureMap :=
  if db.teams.contains teamId then
    let recent := getRecentMatches db.matchRows teamId asOfDate (FORM_MATCHES * 2)
    let venueMatches := recent.filter (fun m => isHomeMatch teamId m == isHome)
    calculateFormFeatures teamId (recent.take FORM_MATCHES) ""
      ++ calculateFormFeatures teamId recent "extended_"
      ++ calculateFormFeatures teamId (venueMatches.take FORM_MATCHES) "venue_"
      ++ getSeasonStats db.seasonStats teamId seasonCode
      ++ calculateXgFeatures teamId recent
      ++ calculateScoringPatterns teamId recent
      ++ [("is_home", if isHome then 1 else 0)]
  else []

end TeamFeatures

/-! ## MatchFeatureBuilder (`apps/ml_pipeline/features/match_features.py`) -/

namespace MatchFeatures

open TeamFeatures (sortByDateDesc involvesTeam)

/-- `diff_keys` of `_calculate_differential_features`. -/
def diffKeys : List String :=
  [ "form_points", "form_goals_scored", "form_goals_conceded",
    "form_goal_diff", "form_win_rate", "season_points",
    "xg_for_avg", "xg_against_avg", "xg_diff" ]

/-- `features.get(key, 0.0)` on a feature mapping. -/
def featGet (fs : FeatureMap) (k : String) : ℚ :=
  match fs.find? (fun p => p.1 == k) with
  | some p => p.2
  | none => 0

/-- `MatchFeatureBuilder._calculate_differential_features`. -/
def calculateDifferentialFeatures (homeFeatures awayFeatures : FeatureMap) : FeatureMap :=
  diffKeys.map (fun k => ("diff_" ++ k, featGet homeFeatures k - featGet awayFeatures k))

/-- Per-meeting goals of the `home_team_id` side, normalized so "home"
always refers to the upcoming match's home team
(`if match.home_team_id == home_team_id` branch of `_calculate_h2h_features`). -/
def h2hHomeGoals (homeTeamId : Nat) (m : MatchRow) : Int :=
  if m.homeTeamId == homeTeamId then m.homeScore.getD 0 else m.awayScore.getD 0

/-- Per-meeting goals of the `away_team_id` side in `_calculate_h2h_features`. -/
def h2hAwayGoals (homeTeamId : Nat) (m : MatchRow) : Int :=
  if m.homeTeamId == homeTeamId then m.awayScore.getD 0 else m.homeScore.getD 0

/-- `MatchFeatureBuilder._calculate_h2h_features`: up to `limit` finished
meetings of the two teams (either venue) strictly before `as_of_date`. -/
def calculateH2hFeatures (dbMatches : List MatchRow) (homeTeamId awayTeamId : Nat)
    (asOfDate : MDate) (limit : Nat) : FeatureMap :=
  let h2h := (sortByDateDesc (dbMatches.filter (fun m =>
      ((m.homeTeamId == homeTeamId && m.awayTeamId == awayTeamId) ||
       (m.homeTeamId == awayTeamId && m.awayTeamId == homeTeamId))
        && decide (m.matchDate.days < asOfDate.days)
        && m.status == MatchStatus.finished))).take limit
  if h2h.isEmpty then
    [ ("h2h_matches", 0),
      ("h2h_home_wins", 0),
      ("h2h_away_wins", 0),
      ("h2h_draws", 0),
      ("h2h_home_goals_avg", 0),
      ("h2h_away_goals_avg", 0),
      ("h2h_total_goals_avg", 0) ]
  else
    let n : ℚ := h2h.length
    let homeWins : Nat := h2h.countP (fun m =>
      decide (h2hAwayGoals homeTeamId m < h2hHomeGoals homeTeamId m))
    let awayWins : Nat := h2h.countP (fun m =>
      decide (h2hHomeGoals homeTeamId m < h2hAwayGoals homeTeamId m))
    let draws : Nat := h2h.countP (fun m =>
      h2hHomeGoals homeTeamId m == h2hAwayGoals homeTeamId m)
    let homeGoals : Int := (h2h.map (h2hHomeGoals homeTeamId)).sum
    let awayGoals : Int := (h2h.map (h2hAwayGoals homeTeamId)).sum
    [ ("h2h_matches", n),
      ("h2h_home_wins", (homeWins : ℚ) / n),
      ("h2h_away_wins", (awayWins : ℚ) / n),
      ("h2h_draws", (draws : ℚ) / n),
      ("h2h_home_goals_avg", (homeGoals : ℚ) / n),
      ("h2h_away_goals_avg", (awayGoals : ℚ) / n),
      ("h2h_total_goals_avg", ((homeGoals + awayGoals : Int) : ℚ) / n) ]

/-- The `.order_by('-match_date').first()` lookup of a team's last
finished match strictly before `match_date`. -/
def lastMatchBefore (dbMatches : List MatchRow) (teamId : Nat) (d : MDate) :
    Option MatchRow :=
  (sortByDateDesc (dbMatches.filter (fun m =>
    involvesTeam teamId m
      && decide (m.matchDate.days < d.days)
      && m.status == MatchStatus.finished))).head?

/-- `MatchFeatureBuilder._calculate_context_features`.  Note that, as in
the source, `rest_diff` uses the *uncapped* rest days while the
`*_rest_days` entries are capped at 14. -/
def calculateContextFeatures (dbMatches : List MatchRow)
    (homeTeamId awayTeamId : Nat) (matchDate : MDate) : FeatureMap :=
  let homeRest : Int :=
    match lastMatchBefore dbMatches homeTeamId matchDate with
    | some m => matchDate.days - m.matchDate.days
    | none => 7
  let awayRest : Int :=
    match lastMatchBefore dbMatches awayTeamId matchDate with
    | some m => matchDate.days - m.matchDate.days
    | none => 7
  [ ("home_rest_days", ((min homeRest 14 : Int) : ℚ)),
    ("away_rest_days", ((min awayRest 14 : Int) : ℚ)),
    ("rest_diff", ((homeRest - awayRest : Int) : ℚ)),
    ("is_weekend", if 5 ≤ matchDate.weekday then 1 else 0),
    ("is_early_season", if matchDate.month = 8 ∨ matchDate.month = 9 then 1 else 0),
    ("is_late_season", if matchDate.month = 4 ∨ matchDate.month = 5 then 1 else 0) ]

/-- `MatchFeatureBuilder._odds_to_probability`. -/
def oddsToProbability (odds : Option ℚ) : ℚ :=
  match odds with
  | none => 0
  | some o => if o ≤ 1 then 0 else 1 / o

/-- The all-zero odds mapping returned when no exact match row (or no
odds row) exists. -/
def zeroOddsFeatures : FeatureMap :=
  [ ("implied_home_prob", 0),
    ("implied_draw_prob", 0),
    ("implied_away_prob", 0),
    ("odds_home", 0),
    ("odds_draw", 0),
    ("odds_away", 0) ]

/-- The `if odds:` block of `_get_odds_features`, given the located match
row: `MatchOdds.objects.filter(match=match).first()` is the first odds
row of that match; each probability is normalized by the total when the
total is positive. -/
def oddsRowFeatures (db : DB) (m : MatchRow) : FeatureMap :=
  match (db.odds.filter (fun o => o.matchId == m.id)).head? with
  | some odds =>
      let homeProb := oddsToProbability odds.homeOdds
      let drawProb := oddsToProbability odds.drawOdds
      let awayProb := oddsToProbability odds.awayOdds
      let total := homeProb + drawProb + awayProb
      let homeProb := if 0 < total then homeProb / total else homeProb
      let drawProb := if 0 < total then drawProb / total else drawProb
      let awayProb := if 0 < total then awayProb / total else awayProb
      [ ("implied_home_prob", homeProb),
        ("implied_draw_prob", drawProb),
        ("implied_away_prob", awayProb),
        ("odds_home", odds.homeOdds.getD 0),
        ("odds_draw", odds.drawOdds.getD 0),
        ("odds_away", odds.awayOdds.getD 0) ]
  | none => zeroOddsFeatures

/-- `MatchFeatureBuilder._get_odds_features`.  `Match.objects.get(...)`
looks up the row with *exactly* this home team, away team and date: zero
rows raise `DoesNotExist` (caught, all-zero result), more than one row
raises `MultipleObjectsReturned` (uncaught — modelled as `Except.error`). -/
def getOddsFeatures (db : DB) (homeTeamId awayTeamId : Nat) (matchDate : MDate) :
    Except String FeatureMap :=
  match db.matchRows.filter (fun m =>
      m.homeTeamId == homeTeamId && m.awayTeamId == awayTeamId
        && m.matchDate.days == matchDate.days) with
  | [] => .ok zeroOddsFeatures
  | [m] => .ok (oddsRowFeatures db m)
  | _ => .error "MultipleObjectsReturned"

/-- The non-odds part of `MatchFeatureBuilder.build_features`: prefixed
home/away team features, differentials, head-to-head and context
features, in the source's insertion order. -/
def buildBaseFeatures (db : DB) (homeTeamId awayTeamId : Nat) (matchDate : MDate)
    (seasonCode : Option String) : FeatureMap :=
  let homeFeatures := TeamFeatures.buildFeatures db homeTeamId matchDate true seasonCode
  let awayFeatures := TeamFeatures.buildFeatures db awayTeamId matchDate false seasonCode
  (homeFeatures.map (fun p => ("home_" ++ p.1, p.2)))
    ++ (awayFeatures.map (fun p => ("away_" ++ p.1, p.2)))
    ++ calculateDifferentialFeatures homeFeatures awayFeatures
    ++ calculateH2hFeatures db.matchRows homeTeamId awayTeamId matchDate 10
    ++ calculateContextFeatures db.matchRows homeTeamId awayTeamId matchDate

/-- `MatchFeatureBuilder.build_features` (per-call cache dropped; pure in
the store).  Only the odds lookup can raise, so the result is an
`Except`. -/
def buildFeatures (db : DB) (homeTeamId awayTeamId : Nat) (matchDate : MDate)
    (seasonCode : Option String) (includeOdds : Bool) :
    Except String FeatureMap :=
  let base := buildBaseFeatures db homeTeamId awayTeamId matchDate seasonCode
  if includeOdds then
    match getOddsFeatures db homeTeamId awayTeamId matchDate with
    | .ok oddsFeatures => .ok (base ++ oddsFeatures)
    | .error e => .error e
  else .ok base

end MatchFeatures

/-! ## ModelVersion store (`apps/predictions/models.py`,
`ModelTrainer.save_models` in `apps/ml_pipeline/training/trainer.py`) -/

namespace ModelStore

/-- `ModelVersion.Status` choices. -/
inductive VersionStatus where
  | training | evaluating | active | archived
deriving Repr, DecidableEq

/-- A `ModelVersion` row (the columns the save path touches). -/
structure ModelVersionRow where
  version : String
  status : VersionStatus
deriving Repr, DecidableEq

/-- `ModelVersion.objects.filter(status=ACTIVE).update(status=ARCHIVED)`. -/
def demoteActive (store : List ModelVersionRow) : List ModelVersionRow :=
  store.map (fun r =>
    if r.status == VersionStatus.active then { r with status := VersionStatus.archived }
    else r)

/-- `ModelVersion.objects.create(version=..., status=ACTIVE, ...)`: the
`version` column is `unique=True`, so creating a row whose version
already exists raises `IntegrityError`. -/
def createVersion (store : List ModelVersionRow) (v : String) :
    Except String (List ModelVersionRow) :=
  if store.any (fun r => r.version == v) then .error "IntegrityError"
  else .ok (store ++ [⟨v, VersionStatus.active⟩])

/-- The database block of `ModelTrainer.save_models`: demote every
active version, then create the new version as active.  The whole block
sits in `try/except Exception`, which only logs — so a failing create
leaves the store as the first statement left it, and `save_models`
still returns normally. -/
def saveModelsRegister (store : List ModelVersionRow) (v : String) :
    List ModelVersionRow :=
  let demoted := demoteActive store
  match createVersion demoted v with
  | .ok s => s
  | .error _ => demoted

/-- The number of rows with status `active`. -/
def countActive (store : List ModelVersionRow) : Nat :=
  store.countP (fun r => r.status == VersionStatus.active)

end ModelStore

/-! ## ModelTrainer data discipline
(`apps/ml_pipeline/training/trainer.py`) -/

namespace Trainer

/-- Row-major training matrix with missing entries. -/
abbrev RawMatrix := List (List (Option ℚ))

/-- `X.fillna(0)`. -/
def fillna0 (X : RawMatrix) : List (List ℚ) :=
  X.map (fun row => row.map (fun v => v.getD 0))

/-- One column of a row-major matrix. -/
def column (X : List (List ℚ)) (j : Nat) : List ℚ :=
  X.map (fun r => r.getD j 0)

/-- sklearn `StandardScaler` interface model: `fit` stores per-column
statistics of the fitted matrix.  sklearn stores the mean and the
standard deviation; the standard deviation is the square root of the
column variance, which `ℚ` cannot represent, so the variance is stored
instead — an equivalent statistic computed from exactly the same data,
which is what the proved properties are about. -/
structure FittedScaler where
  means : List ℚ
  variances : List ℚ
deriving Repr, DecidableEq

/-- `StandardScaler().fit(X)`: column means and variances of `X`. -/
def fitScaler (X : List (List ℚ)) : FittedScaler :=
  let n := (X.head?.map List.length).getD 0
  { means := (List.range n).map (fun j => TeamFeatures.mean (column X j)),
    variances := (List.range n).map (fun j =>
      TeamFeatures.mean ((column X j).map
        (fun x => (x - TeamFeatures.mean (column X j)) ^ 2))) }

/-- `scaler.transform` on one row: affine in the stored statistics. -/
def transformRow (sc : FittedScaler) (row : List ℚ) : List ℚ :=
  (List.range sc.means.length).map
    (fun j => (row.getD j 0 - sc.means.getD j 0) / sc.variances.getD j 0)

/-- `scaler.transform` on a matrix. -/
def transform (sc : FittedScaler) (X : List (List ℚ)) : List (List ℚ) :=
  X.map (transformRow sc)

/-- `train_test_split(..., test_size=s, shuffle=False)` computes
`n_test = ⌈s·n⌉` and keeps the first `n - n_test` rows for training. -/
def nTest (n : Nat) (s : ℚ) : Nat := (⌈s * n⌉).toNat

/-- The chronological split: first `n - n_test` rows train, last
`n_test` rows validate. -/
def trainTestSplitNoShuffle {α : Type} (xs : List α) (s : ℚ) : List α × List α :=
  let k := xs.length - nTest xs.length s
  (xs.take k, xs.drop k)

/-- `TimeSeriesSplit(n_splits=k).split(range(n))` (sklearn): with
`t = n / (k + 1)`, fold `i` trains on `[0, n - (k - i)·t)` and tests on
the following `t` indices. -/
def timeSeriesSplit (nSplits n : Nat) : List (List Nat × List Nat) :=
  let testSize := n / (nSplits + 1)
  (List.range nSplits).map (fun i =>
    let start := n - (nSplits - i) * testSize
    (List.range start, (List.range testSize).map (fun j => start + j)))

/-- The cross-validation splits `ModelTrainer._tune_hyperparameters`
passes to `GridSearchCV`: `TimeSeriesSplit(n_splits=cv)` with the
default `cv = 3` — never a shuffled or random k-fold. -/
def tuneHyperparametersCvSplits (nSamples : Nat) : List (List Nat × List Nat) :=
  timeSeriesSplit 3 nSamples

/-- What the data-preparation phase of `ModelTrainer.train_result_model`
produces before handing off to the external xgboost classifier. -/
structure PreparedTrainingData where
  XFilled : List (List ℚ)
  XTrain : List (List ℚ)
  XVal : List (List ℚ)
  yTrain : List Nat
  yVal : List Nat
  scaler : FittedScaler
  XTrainScaled : List (List ℚ)
  XValScaled : List (List ℚ)
deriving Repr

/-- Lines 139–154 of `ModelTrainer.train_result_model`: `X.fillna(0)`,
`train_test_split(..., shuffle=False)`, `scaler.fit_transform(X_train)`
and `scaler.transform(X_val)`.  The classifier fit, metric computation
and the grid search (see `tuneHyperparametersCvSplits`) consume this
record; they belong to the external numeric library. -/
def trainResultModelPrep (X : RawMatrix) (y : List Nat)
    (validationSplit : ℚ) : PreparedTrainingData :=
  let Xf := fillna0 X
  let split := trainTestSplitNoShuffle Xf validationSplit
  let ysplit := trainTestSplitNoShuffle y validationSplit
  let scaler := fitScaler split.1
  { XFilled := Xf
    XTrain := split.1
    XVal := split.2
    yTrain := ysplit.1
    yVal := ysplit.2
    scaler := scaler
    XTrainScaled := transform scaler split.1
    XValScaled := transform scaler split.2 }

end Trainer

/-! ## MatchPredictor (`apps/ml_pipeline/inference/predictor.py`) -/

namespace Predictor

/-- A value in a prediction payload (`Dict[str, Any]`). -/
inductive PValue where
  | num (q : ℚ)
  | str (s : String)
  | strList (l : List String)
  | bets (l : List (String × ℚ × ℚ × String))
  | nullv
deriving Repr, DecidableEq

/-- A prediction payload: a Python dict in insertion order (keys are
never inserted twice). -/
abbrev Payload := List (String × PValue)

/-- `d.get(k)` on a payload. -/
def payloadGet? (l : Payload) (k : String) : Option PValue :=
  (l.find? (fun p => p.1 == k)).map (fun p => p.2)

/-- `prediction.get(k, 0)` where the value is a probability. -/
def payloadNum (l : Payload) (k : String) : ℚ :=
  match l.find? (fun p => p.1 == k) with
  | some (_, .num q) => q
  | _ => 0

/-- The loaded model bundle held by `self.trainer` after `load_models`:
the ordered feature-column list, the fitted scaler, and up to three
fitted models (external predictors, modelled as opaque functions). -/
structure TrainerState where
  featureColumns : List String
  scaler : Trainer.FittedScaler
  resultModel : Option (List ℚ → ℚ × ℚ × ℚ)
  goalsModel : Option (List ℚ → ℚ)
  over25Model : Option (List ℚ → ℚ × ℚ)

/-- `MatchPredictor._prepare_features`: the feature vector in the
trainer's persisted column order, `features.get(col, 0.0)` for missing
columns (`ℚ` has no NaN), then the persisted scaler's transform. -/
def prepareFeatures (tr : TrainerState) (features : FeatureMap) : List ℚ :=
  Trainer.transformRow tr.scaler
    (tr.featureColumns.map (fun c => MatchFeatures.featGet features c))

/-- `np.argmax([h, d, a])`: the first index attaining the maximum. -/
def argmax3 (h d a : ℚ) : Nat :=
  if h < d then (if d < a then 2 else 1) else (if h < a then 2 else 0)

/-- `['H', 'D', 'A'][pred_class]`. -/
def outcomeLabel (i : Nat) : String :=
  if i = 0 then "H" else if i = 1 then "D" else "A"

/-- `probabilities[pred_class]`. -/
def probAt (h d a : ℚ) (i : Nat) : ℚ :=
  if i = 0 then h else if i = 1 then d else a

/-- `MatchPredictor._assess_risk`. -/
def assessRisk (maxProb : ℚ) : String :=
  if 6/10 ≤ maxProb then "low"
  else if 45/100 ≤ maxProb then "medium"
  else "high"

/-- Python's `round(x, 2)` (banker's rounding to two decimals). -/
def roundHalfEven (x : ℚ) : Int :=
  let f := ⌊x⌋
  let r := x - f
  if r < 1/2 then f
  else if 1/2 < r then f + 1
  else if f % 2 = 0 then f else f + 1

/-- `round(1.0 / prob, 2)`. -/
def round2 (x : ℚ) : ℚ := (roundHalfEven (x * 100) : ℚ) / 100

/-- `MatchPredictor._calculate_value_bets` with the default
`margin = 0.05`: flag outcomes whose probability exceeds `0.5 + margin`
with fair odds `1/p`, and the over/under 2.5 market at the 0.55/0.45
thresholds.  Each bet is (market, probability, fair odds, confidence). -/
def calculateValueBets (prediction : Payload) : List (String × ℚ × ℚ × String) :=
  let margin : ℚ := 5/100
  let outcomes := [("home_win", payloadNum prediction "home_win_prob"),
                   ("draw", payloadNum prediction "draw_prob"),
                   ("away_win", payloadNum prediction "away_win_prob")]
  let bets := (outcomes.filter (fun p => decide (1/2 + margin < p.2))).map
    (fun p => (p.1, p.2, if 0 < p.2 then round2 (1 / p.2) else 0,
      if 6/10 < p.2 then "high" else "medium"))
  let overProb := payloadNum prediction "over_25_prob"
  bets ++
    (if 55/100 < overProb then
      [("over_2.5", overProb, if 0 < overProb then round2 (1 / overProb) else 0,
        if 65/100 < overProb then "high" else "medium")]
    else if overProb < 45/100 then
      [("under_2.5", 1 - overProb, if overProb < 1 then round2 (1 / (1 - overProb)) else 0,
        if overProb < 35/100 then "high" else "medium")]
    else [])

/-- `MatchPredictor._predict`: run whichever of the three models are
loaded and derive outcome, confidence, risk level and value bets. -/
def predictPayload (tr : TrainerState) (X : List ℚ) : Payload :=
  let resultPart : Payload :=
    match tr.resultModel with
    | some f =>
        let proba := f X
        let predClass := argmax3 proba.1 proba.2.1 proba.2.2
        [ ("home_win_prob", .num proba.1),
          ("draw_prob", .num proba.2.1),
          ("away_win_prob", .num proba.2.2),
          ("predicted_outcome", .str (outcomeLabel predClass)),
          ("confidence", .num (probAt proba.1 proba.2.1 proba.2.2 predClass)),
          ("risk_level", .str (assessRisk (max proba.1 (max proba.2.1 proba.2.2)))) ]
    | none => []
  let goalsPart : Payload :=
    match tr.goalsModel with
    | some g => [("predicted_total_goals", .num (g X))]
    | none => []
  let overPart : Payload :=
    match tr.over25Model with
    | some o => [("over_25_prob", .num (o X).2), ("under_25_prob", .num (o X).1)]
    | none => []
  let base := resultPart ++ goalsPart ++ overPart
  base ++ [("value_bets", .bets (calculateValueBets base))]

/-- Field names of the `Prediction` model (`apps/predictions/models.py`,
`TimeStampedModel` columns included). -/
def predictionFieldNames : List String :=
  [ "id", "created_at", "updated_at", "match",
    "home_win_probability", "draw_probability", "away_win_probability",
    "predicted_home_score", "predicted_away_score",
    "confidence_score", "prediction_strength", "recommended_outcome",
    "model_version", "model_type", "features_json", "key_factors",
    "is_correct", "actual_outcome" ]

/-- Field names of the `ModelVersion` model. -/
def modelVersionFieldNames : List String :=
  [ "id", "created_at", "updated_at", "version", "status", "trained_at",
    "training_samples", "training_seasons", "training_leagues", "model_type",
    "hyperparameters", "feature_names", "feature_importance", "accuracy",
    "log_loss", "brier_score", "model_path", "scaler_path", "notes" ]

/-- The keyword names `_save_prediction` passes to
`Prediction.objects.update_or_create(match=match, defaults={...})`. -/
def savePredictionKwargNames : List String :=
  [ "model_version", "home_win_prob", "draw_prob", "away_win_prob",
    "over_25_prob", "predicted_outcome", "confidence", "predicted_total_goals" ]

/-- Django raises `FieldError` at query-construction time when a filter
or keyword names a column the model does not have. -/
def validFieldLookup (fields : List String) (name : String) : Except String Unit :=
  if fields.contains name then .ok () else .error ("FieldError: " ++ name)

/-- `update_or_create` keyed by match id (the prediction store as the
list of match ids holding a prediction row). -/
def updateOrCreate (predictions : List Nat) (matchId : Nat) : List Nat :=
  if predictions.contains matchId then predictions else predictions ++ [matchId]

/-- The `try:` body of `MatchPredictor._save_prediction`: look the match
up, build the `ModelVersion.objects.filter(is_active=True)` queryset,
then `update_or_create` the `Prediction` row with the predictor's
keyword names.  Both the `is_active` filter and the keyword names are
validated against the models' columns, as Django does. -/
def savePredictionTry (matchIdsInStore : List Nat) (predictions : List Nat)
    (matchId : Nat) : Except String (List Nat) :=
  if matchIdsInStore.contains matchId then
    match validFieldLookup modelVersionFieldNames "is_active" with
    | .error e => .error e
    | .ok _ =>
        match savePredictionKwargNames.find?
            (fun k => !(predictionFieldNames.contains k)) with
        | some k => .error ("FieldError: " ++ k)
        | none => .ok (updateOrCreate predictions matchId)
  else .error "Match.DoesNotExist"

/-- `MatchPredictor._save_prediction`: every exception in the `try:`
body is caught and only logged, so a failure leaves the prediction
store untouched. -/
def savePrediction (matchIdsInStore : List Nat) (predictions : List Nat)
    (matchId : Nat) : List Nat :=
  match savePredictionTry matchIdsInStore predictions matchId with
  | .ok ps => ps
  | .error _ => predictions

/-- The predictor's ambient state: the store, the loaded bundle, the
`model_loaded` flag, whether an implicit `load_model()` would succeed,
and the bundle's version identifier (`self.model_version`). -/
structure PredictorEnv where
  db : DB
  trainer : TrainerState
  modelLoaded : Bool
  loadSucceeds : Bool
  modelVersion : Option String

/-- `MatchPredictor.predict_match`.  `nowIso` is the external wall clock
(`timezone.now().isoformat()`); the date's `isoformat()` is abstracted
as the decimal string of its day index.  The only uncaught exception is
`MultipleObjectsReturned` from the odds lookup, so the result is an
`Except`; the `{'error': ...}` payloads are ordinary return values.
Python's `if save_to_db and match_id:` makes a zero match id falsy. -/
def predictMatch (env : PredictorEnv) (homeTeamId awayTeamId : Nat)
    (matchDate : MDate) (seasonCode : Option String) (saveToDb : Bool)
    (matchId : Option Nat) (nowIso : String)
    (matchIdsInStore predictions : List Nat) :
    Except String (Payload × List Nat) :=
  if env.modelLoaded || env.loadSucceeds then
    match MatchFeatures.buildFeatures env.db homeTeamId awayTeamId matchDate
        seasonCode true with
    | .error e => .error e
    | .ok features =>
      if features.isEmpty then
        .ok ([("error", .str "Failed to extract features")], predictions)
      else
        let X := prepareFeatures env.trainer features
        let prediction := predictPayload env.trainer X ++
          [ ("home_team_id", .num homeTeamId),
            ("away_team_id", .num awayTeamId),
            ("match_date", .str (toString matchDate.days)),
            ("predicted_at", .str nowIso),
            ("model_version",
              if env.trainer.featureColumns.isEmpty then PValue.nullv
              else PValue.strList (env.trainer.featureColumns.take 5)) ]
        let predictions' :=
          match saveToDb, matchId with
          | true, some mid =>
              if mid = 0 then predictions
              else savePrediction matchIdsInStore predictions mid
          | _, _ => predictions
        .ok (prediction, predictions')
  else .ok ([("error", .str "Model not loaded")], predictions)

/-- One entry of a `predict_batch` request list; a missing required key
makes the subscript `match['...']` raise `KeyError`. -/
structure MatchReq where
  homeTeamId : Option Nat
  awayTeamId : Option Nat
  matchDate : Option MDate
  seasonCode : Option String := none
  matchId : Option Nat := none

/-- `match.get('match_id')` as a payload value. -/
def optNatValue : Option Nat → PValue
  | some n => .num n
  | none => .nullv

/-- One loop iteration of `predict_batch` up to its `except`: read the
required keys (raising `KeyError` when absent), call `predict_match`,
and append the `match_id` entry to the returned payload. -/
def predictBatchStep (env : PredictorEnv) (matchIdsInStore : List Nat)
    (saveToDb : Bool) (nowIso : String) (predictions : List Nat)
    (req : MatchReq) : Except String (Payload × List Nat) :=
  match req.homeTeamId, req.awayTeamId, req.matchDate with
  | some h, some a, some d =>
      (predictMatch env h a d req.seasonCode saveToDb req.matchId nowIso
          matchIdsInStore predictions).map
        (fun r => (r.1 ++ [("match_id", optNatValue req.matchId)], r.2))
  | _, _, _ => .error "KeyError"

/-- The payload recorded for one entry: the step's payload on success,
or the `{'match_id': ..., 'error': str(e)}` payload from the `except`
branch. -/
def predictBatchEntry (env : PredictorEnv) (matchIdsInStore : List Nat)
    (saveToDb : Bool) (nowIso : String) (predictions : List Nat)
    (req : MatchReq) : Payload :=
  match predictBatchStep env matchIdsInStore saveToDb nowIso predictions req with
  | .ok r => r.1
  | .error e => [("match_id", optNatValue req.matchId), ("error", .str e)]

/-- The `for match in matches:` loop of `predict_batch`, threading the
prediction store through the per-entry saves. -/
def predictBatchLoop (env : PredictorEnv) (matchIdsInStore : List Nat)
    (saveToDb : Bool) (nowIso : String) :
    List MatchReq → List Nat → List Payload × List Nat
  | [], predictions => ([], predictions)
  | req :: reqs, predictions =>
      let head :=
        match predictBatchStep env matchIdsInStore saveToDb nowIso predictions req with
        | .ok r => (r.1, r.2)
        | .error e =>
            ([("match_id", optNatValue req.matchId), ("error", .str e)], predictions)
      let rest := predictBatchLoop env matchIdsInStore saveToDb nowIso reqs head.2
      (head.1 :: rest.1, rest.2)

/-- `MatchPredictor.predict_batch`: when the model is not loaded and the
implicit load fails, the whole batch returns the single
`{'error': 'Model not loaded'}` payload. -/
def predictBatch (env : PredictorEnv) (matchIdsInStore : List Nat)
    (saveToDb : Bool) (nowIso : String) (reqs : List MatchReq)
    (predictions : List Nat) : List Payload × List Nat :=
  if env.modelLoaded || env.loadSucceeds then
    predictBatchLoop env matchIdsInStore saveToDb nowIso reqs predictions
  else ([[("error", .str "Model not loaded")]], predictions)

end Predictor

/-! ## Statement vocabulary: feature-key enumerations and example stores -/

/-- The nine keys of one form window (`form_*`, prefixed for the
extended/venue windows), in the builder's insertion order. -/
def formWindowKeys (pre : String) : List String :=
  [ pre ++ "form_points", pre ++ "form_goals_scored", pre ++ "form_goals_conceded",
    pre ++ "form_goal_diff", pre ++ "form_win_rate", pre ++ "form_draw_rate",
    pre ++ "form_loss_rate", pre ++ "form_clean_sheets", pre ++ "form_failed_to_score" ]

/-- The xG feature keys. -/
def xgKeys : List String :=
  ["xg_for_avg", "xg_against_avg", "xg_diff", "xg_overperformance"]

/-- The scoring-pattern feature keys. -/
def patternKeys : List String :=
  ["btts_rate", "over_25_rate", "over_15_rate", "first_half_goals_rate"]

/-- The season-aggregate feature keys. -/
def seasonKeys : List String :=
  [ "season_points", "season_goals_per_game", "season_conceded_per_game",
    "season_goal_diff", "season_win_rate", "season_xg_diff",
    "season_matches_played" ]

/-- The form/extended-form/venue-form/xG/scoring-pattern keys named by the
zero-history claim. -/
def zeroHistoryClaimKeys : List String :=
  formWindowKeys "" ++ formWindowKeys "extended_" ++ formWindowKeys "venue_"
    ++ xgKeys ++ patternKeys

/-- The weighted-points form keys of the three windows. -/
def weightedPointsKeys : List String :=
  ["form_weighted_points", "extended_form_weighted_points", "venue_form_weighted_points"]

/-- Every key a zero-history team-feature mapping can contain. -/
def zeroHistoryAllKeys : List String :=
  zeroHistoryClaimKeys ++ seasonKeys ++ ["is_home"]

/-- The six odds-feature keys. -/
def oddsFeatureKeys : List String :=
  [ "implied_home_prob", "implied_draw_prob", "implied_away_prob",
    "odds_home", "odds_draw", "odds_away" ]

namespace Examples

/-- A cutoff/prediction date (a Saturday in March). -/
def d0 : MDate := ⟨0, 5, 3⟩

/-- A match row scheduled exactly on the prediction date `d0`. -/
def m0 : MatchRow :=
  { id := 100, homeTeamId := 1, awayTeamId := 2, matchDate := d0,
    status := MatchStatus.scheduled }

/-- Bookmaker odds 2.0 / 4.0 / 4.0 for `m0`. -/
def odds0 : MatchOddsRow := ⟨100, some 2, some 4, some 4⟩

/-- A store holding teams 1 and 2 and no matches at all. -/
def dbEmpty : DB := ⟨[1, 2], [], [], []⟩

/-- `dbEmpty` plus the scheduled match `m0` on the prediction date
(with its odds row): no match strictly before `d0` was added. -/
def dbOnDate : DB := ⟨[1, 2], [m0], [odds0], []⟩

/-- A finished future match (one day after `d0`) between teams 1 and 2
with an extreme score. -/
def mFuture : MatchRow :=
  { id := 101, homeTeamId := 1, awayTeamId := 2, matchDate := ⟨1, 6, 3⟩,
    status := MatchStatus.finished, homeScore := some 9, awayScore := some 0 }

/-- `dbEmpty` plus the finished future match `mFuture`. -/
def dbFuture : DB := ⟨[1, 2], [mFuture], [], []⟩

/-- A loaded bundle with no fitted models and no feature columns. -/
def trivialTrainer : Predictor.TrainerState :=
  { featureColumns := [], scaler := ⟨[], []⟩, resultModel := none,
    goalsModel := none, over25Model := none }

/-- A loaded bundle with six feature columns and no fitted models. -/
def colsTrainer : Predictor.TrainerState :=
  { featureColumns := ["c1", "c2", "c3", "c4", "c5", "c6"],
    scaler := ⟨[], []⟩, resultModel := none,
    goalsModel := none, over25Model := none }

/-- A predictor whose model is not loaded and whose implicit load fails. -/
def envUnloaded : Predictor.PredictorEnv :=
  { db := dbEmpty, trainer := trivialTrainer, modelLoaded := false,
    loadSucceeds := false, modelVersion := none }

/-- A predictor with a loaded (trivial) bundle over the empty store. -/
def envLoaded : Predictor.PredictorEnv :=
  { db := dbEmpty, trainer := trivialTrainer, modelLoaded := true,
    loadSucceeds := true, modelVersion := some "20240101_000000" }

/-- A predictor with the six-column bundle over the empty store. -/
def envCols : Predictor.PredictorEnv :=
  { db := dbEmpty, trainer := colsTrainer, modelLoaded := true,
    loadSucceeds := true, modelVersion := some "20240101_000000" }

/-- A well-formed batch request (teams 1 v 2 on `d0`). -/
def reqOk : Predictor.MatchReq :=
  { homeTeamId := some 1, awayTeamId := some 2, matchDate := some d0,
    matchId := some 7 }

/-- A second well-formed batch request. -/
def reqOk2 : Predictor.MatchReq :=
  { homeTeamId := some 2, awayTeamId := some 1, matchDate := some d0,
    matchId := some 8 }

/-- A batch request missing its `home_team_id` key. -/
def reqBad : Predictor.MatchReq :=
  { homeTeamId := none, awayTeamId := some 2, matchDate := some d0,
    matchId := some 9 }

end Examples

end BetHope

/-! ## Theorems -/

namespace BetHope

open FeedbackTrainer in
/-- **C3.** For every match processed by
`FeedbackTrainer.build_weighted_training_data` (with the default
configuration), the sample weight computed by
`_calculate_sample_weight` equals `1.0` times `max(0.98^days, 0.1)`,
times `2.0` when a validated wrong prediction exists, times an extra
`1.5` when that wrong prediction's confidence exceeded `0.6`, clamped
into `[0.1, 5.0]` (stated for `match_date ≤ reference_date`, where
`days = reference_date - match_date`); moreover every weight — for any
inputs whatsoever — lies in `[0.1, 5.0]`, and a validated wrong
prediction with confidence above `0.6` yields a strictly larger weight
than a validated correct one for the same match date. -/
theorem sample_weight_formula_bounds_and_boost :
    (∀ (matchDate referenceDate : Int) (info : Option PredictionInfo),
      matchDate ≤ referenceDate →
      calculateSampleWeight defaultConfig matchDate info referenceDate =
        claimedSampleWeight (referenceDate - matchDate).toNat info) ∧
    (∀ (matchDate referenceDate : Int) (info : Option PredictionInfo),
      1/10 ≤ calculateSampleWeight defaultConfig matchDate info referenceDate ∧
      calculateSampleWeight defaultConfig matchDate info referenceDate ≤ 5) ∧
    (∀ (matchDate referenceDate : Int) (cWrong cRight : ℚ),
      6/10 < cWrong →
      calculateSampleWeight defaultConfig matchDate
          (some ⟨true, cRight⟩) referenceDate <
        calculateSampleWeight defaultConfig matchDate
          (some ⟨false, cWrong⟩) referenceDate) := by
  -- the pre-boost, pre-clamp factor is always in [1/10, 1]
  have hbase : ∀ (matchDate referenceDate : Int),
      1/10 ≤ timeDecayWeight defaultConfig matchDate referenceDate ∧
      timeDecayWeight defaultConfig matchDate referenceDate ≤ 1 := by
    intro md rd
    unfold timeDecayWeight defaultConfig
    by_cases h : 0 < rd - md
    · rw [if_pos h, one_mul]
      exact ⟨le_max_right _ _,
        max_le (pow_le_one₀ (by norm_num) (by norm_num)) (by norm_num)⟩
    · rw [if_neg h]
      norm_num
  refine ⟨?_, ?_, ?_⟩
  · intro md rd info hle
    have hbase_eq : timeDecayWeight defaultConfig md rd
        = 1 * max ((98/100 : ℚ) ^ (rd - md).toNat) (1/10) := by
      unfold timeDecayWeight defaultConfig
      by_cases h : 0 < rd - md
      · rw [if_pos h]
      · have h0 : rd - md = 0 := by omega
        rw [if_neg h, h0]
        norm_num
    rcases info with _ | ⟨ic, c⟩
    · show max (1/10) (min (timeDecayWeight defaultConfig md rd) 5) = _
      rw [hbase_eq]; rfl
    · rcases ic with _ | _
      · show max (1/10)
            (min (if 6/10 < c then timeDecayWeight defaultConfig md rd * 2 * (3/2)
                  else timeDecayWeight defaultConfig md rd * 2) 5) = _
        rw [hbase_eq]; rfl
      · show max (1/10) (min (timeDecayWeight defaultConfig md rd) 5) = _
        rw [hbase_eq]; rfl
  · intro md rd info
    unfold calculateSampleWeight defaultConfig
    constructor
    · exact le_max_left _ _
    · simp only [max_le_iff]
      exact ⟨by norm_num, min_le_right _ _⟩
  · intro md rd cWrong cRight hc
    obtain ⟨hb1, hb2⟩ := hbase md rd
    have hbpos : 0 < timeDecayWeight defaultConfig md rd :=
      lt_of_lt_of_le (by norm_num) hb1
    have hL : calculateSampleWeight defaultConfig md (some ⟨true, cRight⟩) rd
        = max (1/10) (min (timeDecayWeight defaultConfig md rd) 5) := rfl
    have hR : calculateSampleWeight defaultConfig md (some ⟨false, cWrong⟩) rd
        = max (1/10)
            (min (if 6/10 < cWrong then timeDecayWeight defaultConfig md rd * 2 * (3/2)
                  else timeDecayWeight defaultConfig md rd * 2) 5) := rfl
    rw [hL, hR, if_pos hc]
    set b : ℚ := timeDecayWeight defaultConfig md rd with hbdef
    have hclamp1 : max (1/10 : ℚ) (min b 5) = b := by
      rw [min_eq_left (le_trans hb2 (by norm_num)), max_eq_right hb1]
    have h3 : b * 2 * (3/2) = 3 * b := by ring
    have hclamp2 : max (1/10 : ℚ) (min (b * 2 * (3/2)) 5) = 3 * b := by
      rw [h3, min_eq_left (by nlinarith), max_eq_right (by nlinarith)]
    rw [hclamp1, hclamp2]
    nlinarith

/-- Witness for C3: at `match_date = 0`, `reference_date = 30`, the code
weight of a high-confidence wrong prediction matches the claimed formula,
lies in bounds, and strictly exceeds the correct-prediction weight. -/
theorem sample_weight_formula_bounds_and_boost_witness :
    FeedbackTrainer.calculateSampleWeight FeedbackTrainer.defaultConfig 0
        (some ⟨false, 7/10⟩) 30 =
      FeedbackTrainer.claimedSampleWeight 30 (some ⟨false, 7/10⟩) ∧
    FeedbackTrainer.calculateSampleWeight FeedbackTrainer.defaultConfig 0
        (some ⟨true, 7/10⟩) 30 <
      FeedbackTrainer.calculateSampleWeight FeedbackTrainer.defaultConfig 0
        (some ⟨false, 7/10⟩) 30 :=
  ⟨sample_weight_formula_bounds_and_boost.1 0 30 _ (by norm_num),
   sample_weight_formula_bounds_and_boost.2.2 0 30 (7/10) (7/10) (by norm_num)⟩

open Predictions in
/-- **C8.** `Prediction.save` derives `prediction_strength` purely from
`confidence_score` with half-open-upward thresholds: `strong` iff
`confidence_score ≥ 0.70`, `moderate` iff `0.55 ≤ confidence_score < 0.70`,
`weak` iff `confidence_score < 0.55`; in particular `0.72 ↦ strong`,
`0.60 ↦ moderate`, `0.40 ↦ weak`. -/
theorem prediction_strength_thresholds :
    (∀ c : ℚ, predictionStrength c = .strong ↔ 70/100 ≤ c) ∧
    (∀ c : ℚ, predictionStrength c = .moderate ↔ 55/100 ≤ c ∧ c < 70/100) ∧
    (∀ c : ℚ, predictionStrength c = .weak ↔ c < 55/100) ∧
    predictionStrength (72/100) = .strong ∧
    predictionStrength (60/100) = .moderate ∧
    predictionStrength (40/100) = .weak := by
  refine ⟨?_, ?_, ?_, by norm_num [predictionStrength], by norm_num [predictionStrength],
    by norm_num [predictionStrength]⟩
  · intro c
    unfold predictionStrength
    by_cases h1 : (70:ℚ)/100 ≤ c
    · rw [if_pos h1]
      exact iff_of_true rfl h1
    · rw [if_neg h1]
      by_cases h2 : (55:ℚ)/100 ≤ c
      · rw [if_pos h2]
        exact iff_of_false (by decide) h1
      · rw [if_neg h2]
        exact iff_of_false (by decide) h1
  · intro c
    unfold predictionStrength
    by_cases h1 : (70:ℚ)/100 ≤ c
    · rw [if_pos h1]
      exact iff_of_false (by decide) (fun p => absurd h1 (not_le.mpr p.2))
    · rw [if_neg h1]
      by_cases h2 : (55:ℚ)/100 ≤ c
      · rw [if_pos h2]
        exact iff_of_true rfl ⟨h2, lt_of_not_le h1⟩
      · rw [if_neg h2]
        exact iff_of_false (by decide) (fun p => h2 p.1)
  · intro c
    unfold predictionStrength
    by_cases h1 : (70:ℚ)/100 ≤ c
    · rw [if_pos h1]
      exact iff_of_false (by decide) (not_lt.mpr (le_trans (by norm_num) h1))
    · rw [if_neg h1]
      by_cases h2 : (55:ℚ)/100 ≤ c
      · rw [if_pos h2]
        exact iff_of_false (by decide) (not_lt.mpr h2)
      · rw [if_neg h2]
        exact iff_of_true rfl (lt_of_not_le h2)

/-- Witness for C8: `0.72` is strong because `0.70 ≤ 0.72`. -/
theorem prediction_strength_thresholds_witness :
    Predictions.predictionStrength (72/100) = .strong :=
  (prediction_strength_thresholds.1 (72/100)).mpr (by norm_num)

/-- On an empty match window the form features are the nine fixed keys
paired with zero (and nothing else). -/
theorem calculateFormFeatures_nil (teamId : Nat) (pre : String) :
    TeamFeatures.calculateFormFeatures teamId [] pre
      = (formWindowKeys pre).map (fun k => (k, (0:ℚ))) := rfl

/-- On an empty match window the xG features are the four fixed keys
paired with zero. -/
theorem calculateXgFeatures_nil (teamId : Nat) :
    TeamFeatures.calculateXgFeatures teamId []
      = xgKeys.map (fun k => (k, (0:ℚ))) := rfl

/-- On an empty match window the scoring-pattern features are the four
fixed keys paired with zero. -/
theorem calculateScoringPatterns_nil (teamId : Nat) :
    TeamFeatures.calculateScoringPatterns teamId []
      = patternKeys.map (fun k => (k, (0:ℚ))) := rfl

/-- Every key emitted by `_get_season_stats` is a season key. -/
theorem getSeasonStats_key_mem (rows : List TeamSeasonStatsRow) (teamId : Nat)
    (sc : Option String) :
    ∀ p ∈ TeamFeatures.getSeasonStats rows teamId sc, p.1 ∈ seasonKeys := by
  intro p hp
  unfold TeamFeatures.getSeasonStats at hp
  rcases hlook : TeamFeatures.seasonStatsLookup rows teamId sc with _ | stats <;>
    rw [hlook] at hp <;>
    simp only [List.mem_cons, List.not_mem_nil, or_false] at hp <;>
    rcases hp with rfl | rfl | rfl | rfl | rfl | rfl | rfl <;>
    simp [seasonKeys]

/-- **C4 (amended).** `TeamFeatureBuilder.build_features`, called for an
existing team with no prior finished matches before `as_of_date`, does
not raise and returns a non-empty mapping in which every form,
extended-form, venue-form, xG and scoring-pattern key *except the
weighted-points form keys* is present with value `0.0`; the
weighted-points keys (`form_weighted_points` and its prefixed variants)
are **absent**, because the empty-window early return of
`_calculate_form_features` omits them. -/
theorem zero_history_defaults (db : DB) (teamId : Nat) (d : MDate)
    (isHome : Bool) (sc : Option String)
    (hteam : db.teams.contains teamId = true)
    (hnone : db.matchRows.filter (fun m =>
        TeamFeatures.involvesTeam teamId m
          && decide (m.matchDate.days < d.days)
          && m.status == MatchStatus.finished) = []) :
    (∀ k ∈ zeroHistoryClaimKeys,
        (k, (0:ℚ)) ∈ TeamFeatures.buildFeatures db teamId d isHome sc) ∧
    (∀ p ∈ TeamFeatures.buildFeatures db teamId d isHome sc,
        p.1 ∉ weightedPointsKeys) ∧
    TeamFeatures.buildFeatures db teamId d isHome sc ≠ [] := by
  have hrecent : TeamFeatures.getRecentMatches db.matchRows teamId d
      (TeamFeatures.FORM_MATCHES * 2) = [] := by
    unfold TeamFeatures.getRecentMatches
    rw [hnone]
    rfl
  have hb : TeamFeatures.buildFeatures db teamId d isHome sc =
      TeamFeatures.calculateFormFeatures teamId [] ""
        ++ TeamFeatures.calculateFormFeatures teamId [] "extended_"
        ++ TeamFeatures.calculateFormFeatures teamId [] "venue_"
        ++ TeamFeatures.getSeasonStats db.seasonStats teamId sc
        ++ TeamFeatures.calculateXgFeatures teamId []
        ++ TeamFeatures.calculateScoringPatterns teamId []
        ++ [("is_home", if isHome then 1 else 0)] := by
    unfold TeamFeatures.buildFeatures
    rw [if_pos hteam]
    simp only [hrecent]
    rfl
  have hkeys : ∀ p ∈ TeamFeatures.buildFeatures db teamId d isHome sc,
      p.1 ∈ zeroHistoryAllKeys := by
    intro p hp
    rw [hb] at hp
    simp only [List.mem_append, or_assoc] at hp
    rcases hp with h | h | h | h | h | h | h
    · rw [calculateFormFeatures_nil] at h
      obtain ⟨k, hk, rfl⟩ := List.mem_map.mp h
      exact (by decide : ∀ x ∈ formWindowKeys "", x ∈ zeroHistoryAllKeys) k hk
    · rw [calculateFormFeatures_nil] at h
      obtain ⟨k, hk, rfl⟩ := List.mem_map.mp h
      exact (by decide : ∀ x ∈ formWindowKeys "extended_", x ∈ zeroHistoryAllKeys) k hk
    · rw [calculateFormFeatures_nil] at h
      obtain ⟨k, hk, rfl⟩ := List.mem_map.mp h
      exact (by decide : ∀ x ∈ formWindowKeys "venue_", x ∈ zeroHistoryAllKeys) k hk
    · have hk := getSeasonStats_key_mem db.seasonStats teamId sc p h
      exact (by decide : ∀ x ∈ seasonKeys, x ∈ zeroHistoryAllKeys) p.1 hk
    · rw [calculateXgFeatures_nil] at h
      obtain ⟨k, hk, rfl⟩ := List.mem_map.mp h
      exact (by decide : ∀ x ∈ xgKeys, x ∈ zeroHistoryAllKeys) k hk
    · rw [calculateScoringPatterns_nil] at h
      obtain ⟨k, hk, rfl⟩ := List.mem_map.mp h
      exact (by decide : ∀ x ∈ patternKeys, x ∈ zeroHistoryAllKeys) k hk
    · simp only [List.mem_cons, List.not_mem_nil, or_false] at h
      rw [h]
      exact (by decide : "is_home" ∈ zeroHistoryAllKeys)
  refine ⟨?_, ?_, ?_⟩
  · intro k hk
    rw [hb]
    simp only [List.mem_append, or_assoc]
    simp only [zeroHistoryClaimKeys, List.mem_append, or_assoc] at hk
    rcases hk with h | h | h | h | h
    · exact Or.inl (by rw [calculateFormFeatures_nil]; exact List.mem_map_of_mem _ h)
    · exact Or.inr (Or.inl (by rw [calculateFormFeatures_nil]; exact List.mem_map_of_mem _ h))
    · exact Or.inr (Or.inr (Or.inl
        (by rw [calculateFormFeatures_nil]; exact List.mem_map_of_mem _ h)))
    · exact Or.inr (Or.inr (Or.inr (Or.inr (Or.inl
        (by rw [calculateXgFeatures_nil]; exact List.mem_map_of_mem _ h)))))
    · exact Or.inr (Or.inr (Or.inr (Or.inr (Or.inr (Or.inl
        (by rw [calculateScoringPatterns_nil]; exact List.mem_map_of_mem _ h))))))
  · intro p hp hmem
    exact (by decide : ∀ x ∈ zeroHistoryAllKeys, x ∉ weightedPointsKeys)
      p.1 (hkeys p hp) hmem
  · rw [hb, calculateFormFeatures_nil]
    simp [formWindowKeys]

/-- Counterexample for C4 as stated: for team 1 in a store with no
matches at all, the mapping returned for the cutoff date contains **no**
`form_weighted_points` entry (so the weighted-points form key is not
"present with value 0.0"). -/
theorem zero_history_weighted_points_missing :
    (TeamFeatures.buildFeatures Examples.dbEmpty 1 Examples.d0 true none).find?
        (fun p => p.1 == "form_weighted_points") = none := by decide

/-- Witness for C4 (amended): team 1 exists in `dbEmpty`, has no prior
finished matches, and its `form_points` feature is present with value 0. -/
theorem zero_history_defaults_witness :
    ("form_points", (0:ℚ)) ∈
      TeamFeatures.buildFeatures Examples.dbEmpty 1 Examples.d0 true none :=
  (zero_history_defaults Examples.dbEmpty 1 Examples.d0 true none
      (by decide) rfl).1 "form_points" (by decide)

/-- `features.get(k, 0.0)` skips a block that does not contain key `k`. -/
theorem featGet_append_of_forall_ne (xs ys : FeatureMap) (k : String)
    (h : ∀ p ∈ xs, p.1 ≠ k) :
    MatchFeatures.featGet (xs ++ ys) k = MatchFeatures.featGet ys k := by
  have h1 : xs.find? (fun p => p.1 == k) = none :=
    List.find?_eq_none.mpr (fun p hp => by simpa using h p hp)
  unfold MatchFeatures.featGet
  rw [List.find?_append, h1, Option.none_or]

/-- Every key emitted by `_calculate_h2h_features` is an `h2h_*` key. -/
theorem h2h_key_mem (dbM : List MatchRow) (homeId awayId : Nat) (d : MDate)
    (lim : Nat) :
    ∀ p ∈ MatchFeatures.calculateH2hFeatures dbM homeId awayId d lim,
      p.1 ∈ ["h2h_matches", "h2h_home_wins", "h2h_away_wins", "h2h_draws",
             "h2h_home_goals_avg", "h2h_away_goals_avg", "h2h_total_goals_avg"] := by
  intro p hp
  simp only [MatchFeatures.calculateH2hFeatures] at hp
  split at hp <;>
    simp only [List.mem_cons, List.not_mem_nil, or_false] at hp <;>
    rcases hp with rfl | rfl | rfl | rfl | rfl | rfl | rfl <;>
    simp

/-- Every key emitted by `_calculate_context_features` is a context key. -/
theorem context_key_mem (dbM : List MatchRow) (homeId awayId : Nat) (d : MDate) :
    ∀ p ∈ MatchFeatures.calculateContextFeatures dbM homeId awayId d,
      p.1 ∈ ["home_rest_days", "away_rest_days", "rest_diff",
             "is_weekend", "is_early_season", "is_late_season"] := by
  intro p hp
  simp only [MatchFeatures.calculateContextFeatures] at hp
  simp only [List.mem_cons, List.not_mem_nil, or_false] at hp
  rcases hp with rfl | rfl | rfl | rfl | rfl | rfl <;> simp

/-- No key of the non-odds feature block is an odds-feature key: the
prefixed team keys start with `home_`/`away_`, the differentials with
`diff_`, and the h2h/context keys are fixed non-odds literals. -/
theorem buildBase_keys_not_odds (db : DB) (homeId awayId : Nat) (d : MDate)
    (sc : Option String) :
    ∀ p ∈ MatchFeatures.buildBaseFeatures db homeId awayId d sc,
      ∀ k ∈ oddsFeatureKeys, p.1 ≠ k := by
  intro p hp
  unfold MatchFeatures.buildBaseFeatures at hp
  simp only [List.mem_append, or_assoc] at hp
  rcases hp with h | h | h | h | h
  · obtain ⟨q, hq, rfl⟩ := List.mem_map.mp h
    show ∀ k ∈ oddsFeatureKeys, "home_" ++ q.1 ≠ k
    intro k hk
    have hhead : ("home_" ++ q.1).data.head? = some 'h' := rfl
    fin_cases hk <;> (intro he; rw [he] at hhead; exact absurd hhead (by decide))
  · obtain ⟨q, hq, rfl⟩ := List.mem_map.mp h
    show ∀ k ∈ oddsFeatureKeys, "away_" ++ q.1 ≠ k
    intro k hk
    have hhead : ("away_" ++ q.1).data.head? = some 'a' := rfl
    fin_cases hk <;> (intro he; rw [he] at hhead; exact absurd hhead (by decide))
  · obtain ⟨q, hq, rfl⟩ := List.mem_map.mp
      (by simpa [MatchFeatures.calculateDifferentialFeatures] using h)
    show ∀ k ∈ oddsFeatureKeys, "diff_" ++ q ≠ k
    intro k hk
    have hhead : ("diff_" ++ q).data.head? = some 'd' := rfl
    fin_cases hk <;> (intro he; rw [he] at hhead; exact absurd hhead (by decide))
  · have hmem := h2h_key_mem db.matchRows homeId awayId d 10 p h
    exact fun k hk =>
      (by decide : ∀ x ∈ ["h2h_matches", "h2h_home_wins", "h2h_away_wins",
          "h2h_draws", "h2h_home_goals_avg", "h2h_away_goals_avg",
          "h2h_total_goals_avg"], ∀ y ∈ oddsFeatureKeys, x ≠ y) p.1 hmem k hk
  · have hmem := context_key_mem db.matchRows homeId awayId d p h
    exact fun k hk =>
      (by decide : ∀ x ∈ ["home_rest_days", "away_rest_days", "rest_diff",
          "is_weekend", "is_early_season", "is_late_season"],
          ∀ y ∈ oddsFeatureKeys, x ≠ y) p.1 hmem k hk

/-- `_odds_to_probability` is non-negative. -/
theorem oddsToProbability_nonneg (o : Option ℚ) :
    0 ≤ MatchFeatures.oddsToProbability o := by
  rcases o with _ | v
  · exact le_refl 0
  · show (0:ℚ) ≤ if v ≤ 1 then 0 else 1 / v
    by_cases h : v ≤ 1
    · rw [if_pos h]
    · rw [if_neg h]
      exact le_of_lt (div_pos one_pos (lt_trans zero_lt_one (not_le.mp h)))

/-- `_odds_to_probability` is positive exactly on odds above 1. -/
theorem oddsToProbability_pos (o : Option ℚ) (h : 1 < o.getD 0) :
    0 < MatchFeatures.oddsToProbability o := by
  rcases o with _ | v
  · simp at h; linarith
  · simp only [Option.getD_some] at h
    show (0:ℚ) < if v ≤ 1 then 0 else 1 / v
    rw [if_neg (not_le.mpr h)]
    positivity

open MatchFeatures in
/-- **C5.** For every `MatchFeatureBuilder.build_features` call with
`include_odds = True`: when exactly one match row has this home team,
away team and date, and it has an odds row with at least one decimal
odds value above 1, the call succeeds and the three implied
probabilities are `(1/odds)/Σ(1/odds)` (where `_odds_to_probability`
maps odds `≤ 1` or missing odds to 0) and sum to exactly 1; when no such
match row exists, or the match row has no odds row, the call succeeds
and all six odds features are present with value 0. -/
theorem odds_implied_probability_normalization
    (db : DB) (homeId awayId : Nat) (d : MDate) (sc : Option String) :
    (∀ m odds,
      db.matchRows.filter (fun mm =>
          mm.homeTeamId == homeId && mm.awayTeamId == awayId
            && mm.matchDate.days == d.days) = [m] →
      (db.odds.filter (fun o => o.matchId == m.id)).head? = some odds →
      (1 < odds.homeOdds.getD 0 ∨ 1 < odds.drawOdds.getD 0 ∨
        1 < odds.awayOdds.getD 0) →
      ∃ fs, buildFeatures db homeId awayId d sc true = .ok fs ∧
        (featGet fs "implied_home_prob" = oddsToProbability odds.homeOdds /
            (oddsToProbability odds.homeOdds + oddsToProbability odds.drawOdds
              + oddsToProbability odds.awayOdds) ∧
         featGet fs "implied_draw_prob" = oddsToProbability odds.drawOdds /
            (oddsToProbability odds.homeOdds + oddsToProbability odds.drawOdds
              + oddsToProbability odds.awayOdds) ∧
         featGet fs "implied_away_prob" = oddsToProbability odds.awayOdds /
            (oddsToProbability odds.homeOdds + oddsToProbability odds.drawOdds
              + oddsToProbability odds.awayOdds)) ∧
        featGet fs "implied_home_prob" + featGet fs "implied_draw_prob"
          + featGet fs "implied_away_prob" = 1) ∧
    (db.matchRows.filter (fun mm =>
        mm.homeTeamId == homeId && mm.awayTeamId == awayId
          && mm.matchDate.days == d.days) = [] →
      ∃ fs, buildFeatures db homeId awayId d sc true = .ok fs ∧
        ∀ k ∈ oddsFeatureKeys, (k, (0:ℚ)) ∈ fs ∧ featGet fs k = 0) ∧
    (∀ m,
      db.matchRows.filter (fun mm =>
          mm.homeTeamId == homeId && mm.awayTeamId == awayId
            && mm.matchDate.days == d.days) = [m] →
      (db.odds.filter (fun o => o.matchId == m.id)).head? = none →
      ∃ fs, buildFeatures db homeId awayId d sc true = .ok fs ∧
        ∀ k ∈ oddsFeatureKeys, (k, (0:ℚ)) ∈ fs ∧ featGet fs k = 0) := by
  have hstep : ∀ L, getOddsFeatures db homeId awayId d = .ok L →
      buildFeatures db homeId awayId d sc true
        = .ok (buildBaseFeatures db homeId awayId d sc ++ L) := by
    intro L hL
    have hdef : buildFeatures db homeId awayId d sc true
        = match getOddsFeatures db homeId awayId d with
          | .ok o => .ok (buildBaseFeatures db homeId awayId d sc ++ o)
          | .error e => .error e := rfl
    rw [hdef, hL]
  have hskip : ∀ L k, k ∈ oddsFeatureKeys →
      featGet (buildBaseFeatures db homeId awayId d sc ++ L) k = featGet L k :=
    fun L k hk => featGet_append_of_forall_ne _ L k
      (fun p hp => buildBase_keys_not_odds db homeId awayId d sc p hp k hk)
  refine ⟨?_, ?_, ?_⟩
  · intro m odds hm ho hgt
    have hpos : 0 < oddsToProbability odds.homeOdds + oddsToProbability odds.drawOdds
        + oddsToProbability odds.awayOdds := by
      rcases hgt with h | h | h
      · have := oddsToProbability_pos odds.homeOdds h
        have h2 := oddsToProbability_nonneg odds.drawOdds
        have h3 := oddsToProbability_nonneg odds.awayOdds
        linarith
      · have := oddsToProbability_pos odds.drawOdds h
        have h2 := oddsToProbability_nonneg odds.homeOdds
        have h3 := oddsToProbability_nonneg odds.awayOdds
        linarith
      · have := oddsToProbability_pos odds.awayOdds h
        have h2 := oddsToProbability_nonneg odds.homeOdds
        have h3 := oddsToProbability_nonneg odds.drawOdds
        linarith
    have hodds : getOddsFeatures db homeId awayId d = .ok
        [ ("implied_home_prob", oddsToProbability odds.homeOdds /
            (oddsToProbability odds.homeOdds + oddsToProbability odds.drawOdds
              + oddsToProbability odds.awayOdds)),
          ("implied_draw_prob", oddsToProbability odds.drawOdds /
            (oddsToProbability odds.homeOdds + oddsToProbability odds.drawOdds
              + oddsToProbability odds.awayOdds)),
          ("implied_away_prob", oddsToProbability odds.awayOdds /
            (oddsToProbability odds.homeOdds + oddsToProbability odds.drawOdds
              + oddsToProbability odds.awayOdds)),
          ("odds_home", odds.homeOdds.getD 0),
          ("odds_draw", odds.drawOdds.getD 0),
          ("odds_away", odds.awayOdds.getD 0) ] := by
      have hT : (0 < oddsToProbability odds.homeOdds + oddsToProbability odds.drawOdds
          + oddsToProbability odds.awayOdds) = True := eq_true hpos
      simp only [getOddsFeatures, hm]
      simp only [oddsRowFeatures, ho, hT, if_true]
    refine ⟨_, hstep _ hodds, ⟨?_, ?_, ?_⟩, ?_⟩
    · rw [hskip _ _ (by decide)]; rfl
    · rw [hskip _ _ (by decide)]; rfl
    · rw [hskip _ _ (by decide)]; rfl
    · rw [hskip _ _ (by decide), hskip _ _ (by decide), hskip _ _ (by decide)]
      show oddsToProbability odds.homeOdds / _ + oddsToProbability odds.drawOdds / _
          + oddsToProbability odds.awayOdds / _ = 1
      rw [div_add_div_same, div_add_div_same, div_self (ne_of_gt hpos)]
  · intro hm
    have hodds : getOddsFeatures db homeId awayId d = .ok zeroOddsFeatures := by
      simp only [getOddsFeatures, hm]
    refine ⟨_, hstep _ hodds, fun k hk => ⟨?_, ?_⟩⟩
    · exact List.mem_append_right _
        ((by decide : ∀ x ∈ oddsFeatureKeys, (x, (0:ℚ)) ∈ zeroOddsFeatures) k hk)
    · rw [hskip _ _ hk]
      exact (by decide : ∀ x ∈ oddsFeatureKeys, featGet zeroOddsFeatures x = 0) k hk
  · intro m hm ho
    have hodds : getOddsFeatures db homeId awayId d = .ok zeroOddsFeatures := by
      simp only [getOddsFeatures, hm]
      simp only [oddsRowFeatures, ho]
    refine ⟨_, hstep _ hodds, fun k hk => ⟨?_, ?_⟩⟩
    · exact List.mem_append_right _
        ((by decide : ∀ x ∈ oddsFeatureKeys, (x, (0:ℚ)) ∈ zeroOddsFeatures) k hk)
    · rw [hskip _ _ hk]
      exact (by decide : ∀ x ∈ oddsFeatureKeys, featGet zeroOddsFeatures x = 0) k hk

/-- Witness for C5: for the store holding the scheduled match `m0` with
odds 2.0/4.0/4.0, the implied probabilities are 1/2, 1/4, 1/4 and sum to
1; in the empty store all six odds features are 0. -/
theorem odds_implied_probability_normalization_witness :
    (∃ fs, MatchFeatures.buildFeatures Examples.dbOnDate 1 2 Examples.d0 none true
        = .ok fs ∧
      MatchFeatures.featGet fs "implied_home_prob"
        + MatchFeatures.featGet fs "implied_draw_prob"
        + MatchFeatures.featGet fs "implied_away_prob" = 1) ∧
    (∃ fs, MatchFeatures.buildFeatures Examples.dbEmpty 1 2 Examples.d0 none true
        = .ok fs ∧ MatchFeatures.featGet fs "odds_home" = 0) := by
  constructor
  · obtain ⟨fs, hok, -, hsum⟩ :=
      (odds_implied_probability_normalization Examples.dbOnDate 1 2 Examples.d0
          none).1 Examples.m0 Examples.odds0 (by decide) rfl
        (Or.inl (by norm_num [Examples.odds0]))
    exact ⟨fs, hok, hsum⟩
  · obtain ⟨fs, hok, hzero⟩ :=
      (odds_implied_probability_normalization Examples.dbEmpty 1 2 Examples.d0
          none).2.1 rfl
    exact ⟨fs, hok, (hzero "odds_home" (by decide)).2⟩

/-- Two stores that agree below a cutoff predicate `c` agree on every
filter of the shape `(q && c) && r`. -/
theorem filter_cutoff_eq (l l' : List MatchRow) (c q r : MatchRow → Bool)
    (hm : l'.filter c = l.filter c) :
    l'.filter (fun m => q m && c m && r m)
      = l.filter (fun m => q m && c m && r m) := by
  have key : ∀ t : List MatchRow, t.filter (fun m => q m && c m && r m)
      = (t.filter c).filter (fun m => q m && r m) := by
    intro t
    rw [List.filter_filter]
    apply List.filter_congr
    intro m _
    cases q m <;> cases c m <;> cases r m <;> rfl
  rw [key, key, hm]

/-- **C1 (amended).** Every historical-match lookup of the feature
builders — recent-form matches, head-to-head meetings and last-match
rest-day lookups — filters on `match_date < D` (strict) and
`status = finished`; hence any change to the match store that preserves
the matches strictly before `D` (in particular adding or modifying
matches with `match_date ≥ D`) leaves `TeamFeatureBuilder.build_features`
unchanged and leaves `MatchFeatureBuilder.build_features` unchanged when
`include_odds = False` (equivalently, the whole non-odds feature block).
The six odds features are the exception: they read the match row at
*exactly* date `D` (see the counterexample). -/
theorem temporal_cutoff_invariance (db db' : DB) (D : MDate)
    (hteams : db'.teams = db.teams)
    (hstats : db'.seasonStats = db.seasonStats)
    (hm : db'.matchRows.filter (fun m => decide (m.matchDate.days < D.days))
        = db.matchRows.filter (fun m => decide (m.matchDate.days < D.days))) :
    (∀ teamId isHome sc,
      TeamFeatures.buildFeatures db' teamId D isHome sc
        = TeamFeatures.buildFeatures db teamId D isHome sc) ∧
    (∀ homeId awayId sc,
      MatchFeatures.buildFeatures db' homeId awayId D sc false
        = MatchFeatures.buildFeatures db homeId awayId D sc false) := by
  have hrec : ∀ teamId lim,
      TeamFeatures.getRecentMatches db'.matchRows teamId D lim
        = TeamFeatures.getRecentMatches db.matchRows teamId D lim := by
    intro teamId lim
    unfold TeamFeatures.getRecentMatches
    rw [filter_cutoff_eq _ _ _ _ _ hm]
  have hteamBF : ∀ teamId isHome sc,
      TeamFeatures.buildFeatures db' teamId D isHome sc
        = TeamFeatures.buildFeatures db teamId D isHome sc := by
    intro teamId isHome sc
    unfold TeamFeatures.buildFeatures
    rw [hteams, hstats, hrec teamId (TeamFeatures.FORM_MATCHES * 2)]
  have hh2h : ∀ homeId awayId lim,
      MatchFeatures.calculateH2hFeatures db'.matchRows homeId awayId D lim
        = MatchFeatures.calculateH2hFeatures db.matchRows homeId awayId D lim := by
    intro homeId awayId lim
    unfold MatchFeatures.calculateH2hFeatures
    rw [filter_cutoff_eq _ _ _ _ _ hm]
  have hlast : ∀ teamId,
      MatchFeatures.lastMatchBefore db'.matchRows teamId D
        = MatchFeatures.lastMatchBefore db.matchRows teamId D := by
    intro teamId
    unfold MatchFeatures.lastMatchBefore
    rw [filter_cutoff_eq _ _ _ _ _ hm]
  have hctx : ∀ homeId awayId,
      MatchFeatures.calculateContextFeatures db'.matchRows homeId awayId D
        = MatchFeatures.calculateContextFeatures db.matchRows homeId awayId D := by
    intro homeId awayId
    unfold MatchFeatures.calculateContextFeatures
    rw [hlast homeId, hlast awayId]
  refine ⟨hteamBF, ?_⟩
  intro homeId awayId sc
  have hbase : MatchFeatures.buildBaseFeatures db' homeId awayId D sc
      = MatchFeatures.buildBaseFeatures db homeId awayId D sc := by
    unfold MatchFeatures.buildBaseFeatures
    rw [hteamBF homeId true sc, hteamBF awayId false sc, hh2h homeId awayId 10,
      hctx homeId awayId]
  have e1 : MatchFeatures.buildFeatures db' homeId awayId D sc false
      = .ok (MatchFeatures.buildBaseFeatures db' homeId awayId D sc) := rfl
  have e2 : MatchFeatures.buildFeatures db homeId awayId D sc false
      = .ok (MatchFeatures.buildBaseFeatures db homeId awayId D sc) := rfl
  rw [e1, e2, hbase]

/-- Counterexample for C1 as stated: adding the match `m0` (with its
odds row) *on* the cutoff date `d0` — so no match strictly before `d0`
is touched — changes the feature mapping returned by
`MatchFeatureBuilder.build_features` with `include_odds = True` (the
default): the odds lookup matches the row at exactly date `d0`, turning
`implied_home_prob` from 0 into 1/2. -/
theorem temporal_leakage_odds_counterexample :
    Examples.dbOnDate.teams = Examples.dbEmpty.teams ∧
    Examples.dbOnDate.seasonStats = Examples.dbEmpty.seasonStats ∧
    Examples.dbOnDate.matchRows = Examples.dbEmpty.matchRows ++ [Examples.m0] ∧
    Examples.d0.days ≤ Examples.m0.matchDate.days ∧
    MatchFeatures.buildFeatures Examples.dbEmpty 1 2 Examples.d0 none true
      ≠ MatchFeatures.buildFeatures Examples.dbOnDate 1 2 Examples.d0 none true := by
  refine ⟨rfl, rfl, rfl, le_refl _, ?_⟩
  intro heq
  have e1 : MatchFeatures.buildFeatures Examples.dbEmpty 1 2 Examples.d0 none true
      = .ok (MatchFeatures.buildBaseFeatures Examples.dbEmpty 1 2 Examples.d0 none
          ++ MatchFeatures.zeroOddsFeatures) := rfl
  have e2 : MatchFeatures.buildFeatures Examples.dbOnDate 1 2 Examples.d0 none true
      = .ok (MatchFeatures.buildBaseFeatures Examples.dbOnDate 1 2 Examples.d0 none
          ++ MatchFeatures.oddsRowFeatures Examples.dbOnDate Examples.m0) := rfl
  have hrow : MatchFeatures.oddsRowFeatures Examples.dbOnDate Examples.m0
      = [ ("implied_home_prob", (1:ℚ)/2), ("implied_draw_prob", 1/4),
          ("implied_away_prob", 1/4), ("odds_home", 2), ("odds_draw", 4),
          ("odds_away", 4) ] := by
    have hh : (Examples.dbOnDate.odds.filter
        (fun o => o.matchId == Examples.m0.id)).head? = some Examples.odds0 := rfl
    simp only [MatchFeatures.oddsRowFeatures, hh]
    norm_num [MatchFeatures.oddsToProbability, Examples.odds0]
  have g1 : MatchFeatures.featGet
      (MatchFeatures.buildBaseFeatures Examples.dbEmpty 1 2 Examples.d0 none
        ++ MatchFeatures.zeroOddsFeatures) "implied_home_prob" = 0 := by
    rw [featGet_append_of_forall_ne _ _ _
      (fun p hp => buildBase_keys_not_odds Examples.dbEmpty 1 2 Examples.d0 none
        p hp "implied_home_prob" (by decide))]
    rfl
  have g2 : MatchFeatures.featGet
      (MatchFeatures.buildBaseFeatures Examples.dbOnDate 1 2 Examples.d0 none
        ++ MatchFeatures.oddsRowFeatures Examples.dbOnDate Examples.m0)
      "implied_home_prob" = 1/2 := by
    rw [featGet_append_of_forall_ne _ _ _
      (fun p hp => buildBase_keys_not_odds Examples.dbOnDate 1 2 Examples.d0 none
        p hp "implied_home_prob" (by decide)), hrow]
    rfl
  have hlists := Except.ok.inj ((e1.symm.trans heq).trans e2)
  rw [hlists, g2] at g1
  exact absurd g1 (by norm_num)

/-- Witness for C1 (amended): adding a finished match with an extreme
score one day *after* the cutoff `d0` leaves both the team features and
the non-odds match features for `d0` unchanged. -/
theorem temporal_cutoff_invariance_witness :
    TeamFeatures.buildFeatures Examples.dbFuture 1 Examples.d0 true none
      = TeamFeatures.buildFeatures Examples.dbEmpty 1 Examples.d0 true none ∧
    MatchFeatures.buildFeatures Examples.dbFuture 1 2 Examples.d0 none false
      = MatchFeatures.buildFeatures Examples.dbEmpty 1 2 Examples.d0 none false :=
  ⟨(temporal_cutoff_invariance Examples.dbEmpty Examples.dbFuture Examples.d0
      rfl rfl rfl).1 1 true none,
   (temporal_cutoff_invariance Examples.dbEmpty Examples.dbFuture Examples.d0
      rfl rfl rfl).2 1 2 none⟩

/-- After the demote statement no row is active. -/
theorem countActive_demoteActive (store : List ModelStore.ModelVersionRow) :
    ModelStore.countActive (ModelStore.demoteActive store) = 0 := by
  unfold ModelStore.countActive ModelStore.demoteActive
  rw [List.countP_map]
  apply List.countP_eq_zero.mpr
  intro r _
  by_cases h : r.status == ModelStore.VersionStatus.active
  · simp [Function.comp, h]
  · simp [Function.comp, h]

/-- When the create succeeds, `save_models` leaves the demoted store
plus the new row. -/
theorem saveModelsRegister_ok (store : List ModelStore.ModelVersionRow)
    (v : String) (s : List ModelStore.ModelVersionRow)
    (h : ModelStore.createVersion (ModelStore.demoteActive store) v = .ok s) :
    ModelStore.saveModelsRegister store v = s := by
  simp only [ModelStore.saveModelsRegister, h]

/-- A successful create appends the new active row. -/
theorem createVersion_ok_inv (store : List ModelStore.ModelVersionRow)
    (v : String) (s : List ModelStore.ModelVersionRow)
    (h : ModelStore.createVersion store v = .ok s) :
    s = store ++ [⟨v, ModelStore.VersionStatus.active⟩] := by
  unfold ModelStore.createVersion at h
  split at h
  · cases h
  · exact (Except.ok.inj h).symm

/-- The demote statement does not change any row's version. -/
theorem demoteActive_versions (store : List ModelStore.ModelVersionRow) :
    ∀ r ∈ ModelStore.demoteActive store, ∃ r0 ∈ store, r.version = r0.version := by
  intro r hr
  obtain ⟨r0, hr0, rfl⟩ := List.mem_map.mp hr
  refine ⟨r0, hr0, ?_⟩
  by_cases h : r0.status == ModelStore.VersionStatus.active
  · simp [h]
  · simp [h]

/-- **C7 (amended).** `ModelTrainer.save_models` demotes every active
version and creates the new version as active, so at most one version
is ever active afterwards; and *when the database registration
succeeds* — in particular when the version string is fresh — exactly
one version is active afterwards: the new one, with every previously
active version archived.  (When the create fails, e.g. with an
`IntegrityError` on a duplicate version string, the surrounding
`except` swallows it and the store is left with zero active versions
— see the counterexample.) -/
theorem save_models_single_active (store : List ModelStore.ModelVersionRow)
    (v : String) :
    ModelStore.countActive (ModelStore.saveModelsRegister store v) ≤ 1 ∧
    ((∀ r ∈ store, r.version ≠ v) →
      ModelStore.countActive (ModelStore.saveModelsRegister store v) = 1 ∧
      (∀ r ∈ ModelStore.saveModelsRegister store v,
        r.status = ModelStore.VersionStatus.active → r.version = v) ∧
      (∀ r ∈ store, r.status = ModelStore.VersionStatus.active →
        (⟨r.version, ModelStore.VersionStatus.archived⟩ : ModelStore.ModelVersionRow)
          ∈ ModelStore.saveModelsRegister store v)) := by
  have hdem0 := countActive_demoteActive store
  have hdemNA : ∀ r ∈ ModelStore.demoteActive store,
      ¬ r.status = ModelStore.VersionStatus.active := by
    intro r hr
    obtain ⟨r0, _, rfl⟩ := List.mem_map.mp hr
    by_cases h : r0.status == ModelStore.VersionStatus.active
    · simp [h]
    · simp [h]
      simpa using h
  constructor
  · rcases hcreate : ModelStore.createVersion (ModelStore.demoteActive store) v
        with e | s
    · rw [show ModelStore.saveModelsRegister store v = ModelStore.demoteActive store
        from by simp only [ModelStore.saveModelsRegister, hcreate], hdem0]
      norm_num
    · rw [saveModelsRegister_ok store v s hcreate,
        createVersion_ok_inv _ v s hcreate]
      unfold ModelStore.countActive at hdem0 ⊢
      rw [List.countP_append, hdem0]
      simp
  · intro hfresh
    have hany : (ModelStore.demoteActive store).any (fun r => r.version == v) = false := by
      apply List.any_eq_false.mpr
      intro r hr
      obtain ⟨r0, hr0, hver⟩ := demoteActive_versions store r hr
      simpa [hver] using hfresh r0 hr0
    have hcreateok : ModelStore.createVersion (ModelStore.demoteActive store) v
        = .ok (ModelStore.demoteActive store
            ++ [⟨v, ModelStore.VersionStatus.active⟩]) := by
      unfold ModelStore.createVersion
      rw [if_neg (by simp [hany])]
    have hreg := saveModelsRegister_ok store v _ hcreateok
    refine ⟨?_, ?_, ?_⟩
    · rw [hreg]
      unfold ModelStore.countActive at hdem0 ⊢
      rw [List.countP_append, hdem0]
      simp
    · intro r hr hact
      rw [hreg] at hr
      rcases List.mem_append.mp hr with h | h
      · exact absurd hact (hdemNA r h)
      · simp only [List.mem_cons, List.not_mem_nil, or_false] at h
        rw [h]
    · intro r hr hact
      rw [hreg]
      apply List.mem_append_left
      apply List.mem_map.mpr
      refine ⟨r, hr, ?_⟩
      simp [hact]

/-- Counterexample for C7 as stated: a second `save_models` call with
an already-registered version string returns normally (the
`IntegrityError` is swallowed) but leaves **zero** active versions —
the previously active `v1` is archived and no new row exists. -/
theorem save_models_duplicate_version_zero_active :
    ModelStore.countActive (ModelStore.saveModelsRegister
      [⟨"v1", ModelStore.VersionStatus.active⟩] "v1") = 0 := by decide

/-- Witness for C7 (amended): registering fresh version `v1` over a
store with one active and one archived version yields exactly one
active version. -/
theorem save_models_single_active_witness :
    ModelStore.countActive (ModelStore.saveModelsRegister
      [⟨"v0", ModelStore.VersionStatus.active⟩,
       ⟨"x", ModelStore.VersionStatus.archived⟩] "v1") = 1 :=
  ((save_models_single_active _ "v1").2 (by decide)).1

/-- `_save_prediction` always leaves the prediction store unchanged:
its `try:` body fails before any write — first on the
`ModelVersion.objects.filter(is_active=True)` lookup (`ModelVersion`
has a `status` column, not `is_active`), and the `update_or_create`
keywords would not match the `Prediction` columns either — and the
`except` swallows the error. -/
theorem savePrediction_unchanged (matchIdsInStore predictions : List Nat)
    (matchId : Nat) :
    Predictor.savePrediction matchIdsInStore predictions matchId = predictions := by
  unfold Predictor.savePrediction Predictor.savePredictionTry
  by_cases h : matchIdsInStore.contains matchId = true
  · rw [if_pos h]
    rfl
  · rw [if_neg h]

/-- `predict_match` never changes the prediction store, whatever the
arguments. -/
theorem predictMatch_preserves_store (env : Predictor.PredictorEnv)
    (h a : Nat) (d : MDate) (sc : Option String) (saveToDb : Bool)
    (matchId : Option Nat) (nowIso : String) (ids preds : List Nat)
    (out : Predictor.Payload × List Nat)
    (hok : Predictor.predictMatch env h a d sc saveToDb matchId nowIso ids preds
      = .ok out) : out.2 = preds := by
  unfold Predictor.predictMatch at hok
  by_cases hl : (env.modelLoaded || env.loadSucceeds) = true
  · rw [if_pos hl] at hok
    split at hok
    · cases hok
    · split at hok
      · rw [← Except.ok.inj hok]
      · rw [← Except.ok.inj hok]
        dsimp only
        cases saveToDb <;> rcases matchId with _ | mid <;>
          simp [savePrediction_unchanged]
  · rw [if_neg hl] at hok
    rw [← Except.ok.inj hok]

/-- **C2.** The claim is what `_save_prediction` *intends*, but the code
never persists a row: `ModelVersion.objects.filter(is_active=True)`
names a non-existent column (`ModelVersion` has `status`), raising
`FieldError` inside the `try:`; the `update_or_create` defaults also
use `home_win_prob`/`draw_prob`/`away_win_prob`/`predicted_outcome`/
`confidence`/... where the `Prediction` model has
`home_win_probability`/`recommended_outcome`/`confidence_score`/...
The exception is swallowed, so after `predict_match(save_to_db=True,
match_id=...)` on an existing match **no** Prediction row exists and
the store is unchanged. -/
theorem prediction_save_is_dead_code :
    (∀ (matchIdsInStore predictions : List Nat) (matchId : Nat),
      Predictor.savePrediction matchIdsInStore predictions matchId = predictions) ∧
    (∀ (env : Predictor.PredictorEnv) (h a : Nat) (d : MDate)
        (sc : Option String) (mid : Nat) (nowIso : String)
        (ids preds : List Nat) (out : Predictor.Payload × List Nat),
      Predictor.predictMatch env h a d sc true (some mid) nowIso ids preds
          = .ok out → out.2 = preds) ∧
    "is_active" ∉ Predictor.modelVersionFieldNames ∧
    "home_win_prob" ∉ Predictor.predictionFieldNames ∧
    "predicted_outcome" ∉ Predictor.predictionFieldNames ∧
    "confidence" ∉ Predictor.predictionFieldNames :=
  ⟨savePrediction_unchanged,
   fun env h a d sc mid nowIso ids preds out hok =>
     predictMatch_preserves_store env h a d sc true (some mid) nowIso ids preds out hok,
   by decide, by decide, by decide, by decide⟩

/-- Witness for C2: a concrete `predict_match` call with
`save_to_db=True` on the existing match 7 returns a payload but leaves
the (empty) prediction store empty. -/
theorem prediction_save_is_dead_code_witness :
    ∃ out, Predictor.predictMatch Examples.envLoaded 1 2 Examples.d0 none true
        (some 7) "t" [7] [] = .ok out ∧ out.2 = [] :=
  ⟨_, rfl, prediction_save_is_dead_code.2.1 Examples.envLoaded 1 2 Examples.d0
    none 7 "t" [7] [] _ rfl⟩

/-- `find?` by key skips a block that does not contain the key. -/
theorem find?_key_append {α : Type} (xs ys : List (String × α)) (k : String)
    (h : ∀ p ∈ xs, p.1 ≠ k) :
    (xs ++ ys).find? (fun p => p.1 == k) = ys.find? (fun p => p.1 == k) := by
  have h1 : xs.find? (fun p : String × α => p.1 == k) = none :=
    List.find?_eq_none.mpr (fun p hp => by simpa using h p hp)
  rw [List.find?_append, h1, Option.none_or]

/-- Every key `_predict` emits belongs to its fixed key set. -/
theorem predictPayload_key_mem (tr : Predictor.TrainerState) (X : List ℚ) :
    ∀ p ∈ Predictor.predictPayload tr X,
      p.1 ∈ ["home_win_prob", "draw_prob", "away_win_prob", "predicted_outcome",
             "confidence", "risk_level", "predicted_total_goals",
             "over_25_prob", "under_25_prob", "value_bets"] := by
  intro p hp
  simp only [Predictor.predictPayload, List.mem_append, or_assoc] at hp
  rcases hp with h | h | h | h
  · split at h
    · simp only [List.mem_cons, List.not_mem_nil, or_false] at h
      rcases h with rfl | rfl | rfl | rfl | rfl | rfl <;> simp
    · exact absurd h (List.not_mem_nil p)
  · split at h
    · simp only [List.mem_cons, List.not_mem_nil, or_false] at h
      rw [h]
      exact (by decide : "predicted_total_goals" ∈ ["home_win_prob", "draw_prob",
        "away_win_prob", "predicted_outcome", "confidence", "risk_level",
        "predicted_total_goals", "over_25_prob", "under_25_prob", "value_bets"])
    · exact absurd h (List.not_mem_nil p)
  · split at h
    · simp only [List.mem_cons, List.not_mem_nil, or_false] at h
      rcases h with rfl | rfl <;> simp
    · exact absurd h (List.not_mem_nil p)
  · simp only [List.mem_cons, List.not_mem_nil, or_false] at h
    rw [h]
    exact (by decide : "value_bets" ∈ ["home_win_prob", "draw_prob",
      "away_win_prob", "predicted_outcome", "confidence", "risk_level",
      "predicted_total_goals", "over_25_prob", "under_25_prob", "value_bets"])

/-- **C10.** In every successful `predict_match` payload (model loaded,
features extracted and non-empty), the `model_version` field equals the
list of the *first five entries of the loaded feature-column list* (or
`None` when that list is empty) — it is never a version identifier
string; the payload also carries no `error` key. -/
theorem model_version_is_feature_columns (env : Predictor.PredictorEnv)
    (h a : Nat) (d : MDate) (sc : Option String) (saveToDb : Bool)
    (matchId : Option Nat) (nowIso : String) (ids preds : List Nat)
    (features : FeatureMap)
    (hload : (env.modelLoaded || env.loadSucceeds) = true)
    (hbf : MatchFeatures.buildFeatures env.db h a d sc true = .ok features)
    (hne : features.isEmpty = false) :
    ∃ out, Predictor.predictMatch env h a d sc saveToDb matchId nowIso ids preds
        = .ok out ∧
      (∀ p ∈ out.1, p.1 ≠ "error") ∧
      Predictor.payloadGet? out.1 "model_version"
        = some (if env.trainer.featureColumns.isEmpty then Predictor.PValue.nullv
            else Predictor.PValue.strList (env.trainer.featureColumns.take 5)) ∧
      (∀ s : String,
        Predictor.payloadGet? out.1 "model_version"
          ≠ some (Predictor.PValue.str s)) := by
  have hstep : Predictor.predictMatch env h a d sc saveToDb matchId nowIso ids preds
      = .ok (Predictor.predictPayload env.trainer
            (Predictor.prepareFeatures env.trainer features) ++
          [ ("home_team_id", Predictor.PValue.num h),
            ("away_team_id", Predictor.PValue.num a),
            ("match_date", Predictor.PValue.str (toString d.days)),
            ("predicted_at", Predictor.PValue.str nowIso),
            ("model_version",
              if env.trainer.featureColumns.isEmpty then Predictor.PValue.nullv
              else Predictor.PValue.strList (env.trainer.featureColumns.take 5)) ],
          match saveToDb, matchId with
          | true, some mid =>
              if mid = 0 then preds else Predictor.savePrediction ids preds mid
          | _, _ => preds) := by
    simp only [Predictor.predictMatch, hload, if_true, hbf, hne, Bool.false_eq_true,
      if_false]
  refine ⟨_, hstep, ?_, ?_, ?_⟩
  · intro p hp
    rcases List.mem_append.mp hp with hmem | hmem
    · have hk := predictPayload_key_mem env.trainer _ p hmem
      exact (by decide : ∀ x ∈ ["home_win_prob", "draw_prob", "away_win_prob",
        "predicted_outcome", "confidence", "risk_level", "predicted_total_goals",
        "over_25_prob", "under_25_prob", "value_bets"], x ≠ "error") p.1 hk
    · simp only [List.mem_cons, List.not_mem_nil, or_false] at hmem
      rcases hmem with rfl | rfl | rfl | rfl | rfl
      · exact (by decide : "home_team_id" ≠ "error")
      · exact (by decide : "away_team_id" ≠ "error")
      · exact (by decide : "match_date" ≠ "error")
      · exact (by decide : "predicted_at" ≠ "error")
      · exact (by decide : "model_version" ≠ "error")
  · show Predictor.payloadGet? (_ ++ _) "model_version" = _
    unfold Predictor.payloadGet?
    rw [find?_key_append _ _ _ (fun p hp => by
      have hk := predictPayload_key_mem env.trainer _ p hp
      exact (by decide : ∀ x ∈ ["home_win_prob", "draw_prob", "away_win_prob",
        "predicted_outcome", "confidence", "risk_level", "predicted_total_goals",
        "over_25_prob", "under_25_prob", "value_bets"], x ≠ "model_version") p.1 hk)]
    rfl
  · intro s
    show Predictor.payloadGet? (_ ++ _) "model_version" ≠ _
    unfold Predictor.payloadGet?
    rw [find?_key_append _ _ _ (fun p hp => by
      have hk := predictPayload_key_mem env.trainer _ p hp
      exact (by decide : ∀ x ∈ ["home_win_prob", "draw_prob", "away_win_prob",
        "predicted_outcome", "confidence", "risk_level", "predicted_total_goals",
        "over_25_prob", "under_25_prob", "value_bets"], x ≠ "model_version") p.1 hk)]
    cases hc : env.trainer.featureColumns.isEmpty <;> simp [hc]

/-- Witness for C10: with six loaded feature columns `c1…c6`, the
payload's `model_version` is the list `[c1, c2, c3, c4, c5]` (not the
bundle's version string). -/
theorem model_version_is_feature_columns_witness :
    ∃ out, Predictor.predictMatch Examples.envCols 1 2 Examples.d0 none false none
        "t" [] [] = .ok out ∧
      Predictor.payloadGet? out.1 "model_version"
        = some (Predictor.PValue.strList ["c1", "c2", "c3", "c4", "c5"]) := by
  obtain ⟨out, hok, -, hmv, -⟩ := model_version_is_feature_columns Examples.envCols
    1 2 Examples.d0 none false none "t" [] [] _ rfl rfl rfl
  refine ⟨out, hok, ?_⟩
  rw [hmv]
  rfl

/-- A successful batch step leaves the prediction store unchanged. -/
theorem predictBatchStep_preserves_store (env : Predictor.PredictorEnv)
    (ids : List Nat) (saveToDb : Bool) (nowIso : String) (preds : List Nat)
    (req : Predictor.MatchReq) (out : Predictor.Payload × List Nat)
    (h : Predictor.predictBatchStep env ids saveToDb nowIso preds req = .ok out) :
    out.2 = preds := by
  obtain ⟨hID, aID, dd, rsc, rmid⟩ := req
  rcases hID with _ | hh
  · simp only [Predictor.predictBatchStep] at h
    cases h
  · rcases aID with _ | aa
    · simp only [Predictor.predictBatchStep] at h
      cases h
    · rcases dd with _ | dm
      · simp only [Predictor.predictBatchStep] at h
        cases h
      · simp only [Predictor.predictBatchStep] at h
        rcases hpm : Predictor.predictMatch env hh aa dm rsc saveToDb rmid nowIso
            ids preds with e | r <;> rw [hpm] at h <;> simp only [Except.map] at h
        · cases h
        · rw [← Except.ok.inj h]
          exact predictMatch_preserves_store env hh aa dm rsc saveToDb rmid
            nowIso ids preds r hpm

/-- The batch loop records one entry per request, in request order, and
leaves the prediction store unchanged. -/
theorem predictBatchLoop_eq (env : Predictor.PredictorEnv) (ids : List Nat)
    (saveToDb : Bool) (nowIso : String) (preds : List Nat)
    (reqs : List Predictor.MatchReq) :
    Predictor.predictBatchLoop env ids saveToDb nowIso reqs preds
      = (reqs.map (Predictor.predictBatchEntry env ids saveToDb nowIso preds),
         preds) := by
  induction reqs with
  | nil => rfl
  | cons req reqs ih =>
    rw [Predictor.predictBatchLoop]
    rcases hstep : Predictor.predictBatchStep env ids saveToDb nowIso preds req
        with e | r
    · simp only [hstep, List.map_cons, Predictor.predictBatchEntry, ih]
    · have h2 := predictBatchStep_preserves_store env ids saveToDb nowIso preds
        req r hstep
      simp only [hstep, h2, List.map_cons, Predictor.predictBatchEntry, ih]

/-- **C9 (amended).** When the model is loaded (or the implicit load
succeeds), `predict_batch` applies `predict_match` to each entry,
isolates per-entry failures (a raised exception becomes that entry's
`{'match_id': ..., 'error': ...}` payload, recorded by
`predictBatchEntry`), and returns exactly one result per input in input
order, leaving the prediction store unchanged.  (When the model cannot
be loaded, the batch instead returns the single
`{'error': 'Model not loaded'}` payload regardless of the input length
— see the counterexample.) -/
theorem predict_batch_isolation_and_order (env : Predictor.PredictorEnv)
    (ids : List Nat) (saveToDb : Bool) (nowIso : String) (preds : List Nat)
    (reqs : List Predictor.MatchReq)
    (hload : (env.modelLoaded || env.loadSucceeds) = true) :
    Predictor.predictBatch env ids saveToDb nowIso reqs preds
      = (reqs.map (Predictor.predictBatchEntry env ids saveToDb nowIso preds),
         preds) ∧
    (Predictor.predictBatch env ids saveToDb nowIso reqs preds).1.length
      = reqs.length := by
  have hb : Predictor.predictBatch env ids saveToDb nowIso reqs preds
      = (reqs.map (Predictor.predictBatchEntry env ids saveToDb nowIso preds),
         preds) := by
    unfold Predictor.predictBatch
    rw [if_pos hload, predictBatchLoop_eq]
  exact ⟨hb, by rw [hb]; exact List.length_map _ _⟩

/-- Counterexample for C9 as stated: with the model not loaded and the
implicit load failing, a batch of **two** requests returns a single
`{'error': 'Model not loaded'}` result, not two. -/
theorem predict_batch_unloaded_counterexample :
    (Predictor.predictBatch Examples.envUnloaded [] false "t"
        [Examples.reqOk, Examples.reqOk2] []).1.length = 1 ∧
    ([Examples.reqOk, Examples.reqOk2] : List Predictor.MatchReq).length = 2 ∧
    (Predictor.predictBatch Examples.envUnloaded [] false "t"
        [Examples.reqOk, Examples.reqOk2] []).1
      = [[("error", Predictor.PValue.str "Model not loaded")]] :=
  ⟨rfl, rfl, rfl⟩

/-- Witness for C9 (amended): a loaded predictor given five requests —
the second missing its `home_team_id` key — returns exactly five
results in input order, the second being the `KeyError` payload of the
bad entry. -/
theorem predict_batch_isolation_and_order_witness :
    (Predictor.predictBatch Examples.envLoaded [] false "t"
        [Examples.reqOk, Examples.reqBad, Examples.reqOk2, Examples.reqOk,
         Examples.reqOk2] []).1.length = 5 ∧
    (Predictor.predictBatch Examples.envLoaded [] false "t"
        [Examples.reqOk, Examples.reqBad, Examples.reqOk2, Examples.reqOk,
         Examples.reqOk2] []).1.get? 1
      = some (Predictor.predictBatchEntry Examples.envLoaded [] false "t" []
          Examples.reqBad) := by
  have h := predict_batch_isolation_and_order Examples.envLoaded [] false "t" []
    [Examples.reqOk, Examples.reqBad, Examples.reqOk2, Examples.reqOk,
     Examples.reqOk2] rfl
  refine ⟨h.2, ?_⟩
  rw [h.1]
  rfl

/-- **C6.** `ModelTrainer.train_result_model` fills missing feature
values with 0, splits train/validation **without shuffling** — train
and validation concatenate back to the filled matrix and the validation
set is exactly the last `⌈validation_split·n⌉` rows, i.e. the latest
matches in temporal order; fits the scaler on the training split only —
the fitted statistics are a function of the training prefix alone, so
two datasets with the same training prefix yield the same scaler — and
only *transforms* the validation split with it; and when
`tune_hyperparams` is set the grid search uses the
`TimeSeriesSplit(n_splits=3)` cross-validation splits, in which every
training index precedes every test index — never a shuffled or random
k-fold. -/
theorem train_result_model_discipline (X : Trainer.RawMatrix) (y : List Nat)
    (s : ℚ) :
    ((Trainer.trainResultModelPrep X y s).XFilled = Trainer.fillna0 X) ∧
    ((Trainer.trainResultModelPrep X y s).XTrain
        ++ (Trainer.trainResultModelPrep X y s).XVal = Trainer.fillna0 X) ∧
    ((Trainer.trainResultModelPrep X y s).XVal
        = (Trainer.fillna0 X).drop
            ((Trainer.fillna0 X).length
              - Trainer.nTest (Trainer.fillna0 X).length s)) ∧
    ((Trainer.trainResultModelPrep X y s).scaler
        = Trainer.fitScaler ((Trainer.fillna0 X).take
            ((Trainer.fillna0 X).length
              - Trainer.nTest (Trainer.fillna0 X).length s))) ∧
    ((Trainer.trainResultModelPrep X y s).XValScaled
        = (Trainer.trainResultModelPrep X y s).XVal.map
            (Trainer.transformRow (Trainer.trainResultModelPrep X y s).scaler)) ∧
    (∀ (X₂ : Trainer.RawMatrix) (y₂ : List Nat),
      (Trainer.fillna0 X₂).take
          ((Trainer.fillna0 X₂).length - Trainer.nTest (Trainer.fillna0 X₂).length s)
        = (Trainer.fillna0 X).take
          ((Trainer.fillna0 X).length - Trainer.nTest (Trainer.fillna0 X).length s) →
      (Trainer.trainResultModelPrep X₂ y₂ s).scaler
        = (Trainer.trainResultModelPrep X y s).scaler) ∧
    (∀ (n : Nat), ∀ split ∈ Trainer.tuneHyperparametersCvSplits n,
      ∀ i ∈ split.1, ∀ j ∈ split.2, i < j) := by
  refine ⟨rfl, List.take_append_drop _ _, rfl, rfl, rfl, ?_, ?_⟩
  · intro X₂ y₂ heq
    show Trainer.fitScaler ((Trainer.fillna0 X₂).take _)
        = Trainer.fitScaler ((Trainer.fillna0 X).take _)
    rw [heq]
  · intro n split hsplit i hi j hj
    unfold Trainer.tuneHyperparametersCvSplits Trainer.timeSeriesSplit at hsplit
    obtain ⟨fold, hfold, rfl⟩ := List.mem_map.mp hsplit
    have hi' := List.mem_range.mp hi
    obtain ⟨j0, hj0, rfl⟩ := List.mem_map.mp hj
    omega

/-- Witness for C6: on a five-row matrix with one missing value and
`validation_split = 1/5`, the chronological split re-concatenates to
the filled matrix; and in the `TimeSeriesSplit(3)` folds for 8 samples,
training index 0 precedes test index 2 of the first fold. -/
theorem train_result_model_discipline_witness :
    ((Trainer.trainResultModelPrep
        [[some 1], [none], [some 2], [some 3], [some 4]] [0, 1, 0, 1, 0]
        (1/5)).XTrain
      ++ (Trainer.trainResultModelPrep
        [[some 1], [none], [some 2], [some 3], [some 4]] [0, 1, 0, 1, 0]
        (1/5)).XVal
      = Trainer.fillna0 [[some 1], [none], [some 2], [some 3], [some 4]]) ∧
    (0 : Nat) < 2 :=
  ⟨(train_result_model_discipline
      [[some 1], [none], [some 2], [some 3], [some 4]] [0, 1, 0, 1, 0]
      (1/5)).2.1,
   (train_result_model_discipline [] [] (1/5)).2.2.2.2.2.2 8
     (List.range 2, [2, 3]) (by decide) 0 (by decide) 2 (by decide)⟩

end BetHope
